import Mathlib

set_option linter.all false

/-!
Shallow embedding of the snake game engine (class Game of src/js/game.js,
helpers from class Utils). Randomness (Math.random draws) and the wall clock
(Date.now) are passed in explicitly: spawn loops receive the successive random
candidate cells as a list, Bernoulli draws arrive as booleans, and each tick
receives its clock value. JS numbers used as grid coordinates are modelled as
integers, the tick interval (which is multiplied by 0.7) as a rational.
-/

namespace CyberSnake

/-- Grid cell with integer coordinates; coordinates may leave the grid. -/
structure Cell where
  x : Int
  y : Int
deriving DecidableEq, Repr

/-- Food kind, the string field type of the JS food object. -/
inductive FoodType where
  | normal
  | special
deriving DecidableEq, Repr

/-- Food state: position plus kind, mirroring this.food. -/
structure Food where
  x : Int
  y : Int
  type : FoodType
deriving DecidableEq, Repr

/-- Game mode strings of the config. -/
inductive Mode where
  | classic
  | timeAttack
  | obstacle
deriving DecidableEq, Repr

/-- Power-up kind strings. -/
inductive PowerUpType where
  | speedBoost
  | invincible
  | wallPass
deriving DecidableEq, Repr

/-- Configuration object, the recognized keys of this.config. -/
structure Config where
  gridSize : Int
  width : Int
  height : Int
  speed : ℚ
  speedIncrease : ℚ
  maxSpeed : ℚ
  initialSnakeLength : Nat
  mode : Mode
  timeLimit : Int
  obstacleCount : Nat
  specialFoodChance : ℚ
  specialFoodDuration : Int
deriving DecidableEq, Repr

/-- Default configuration values of the constructor. -/
def defaultConfig : Config :=
  { gridSize := 20, width := 30, height := 20, speed := 150, speedIncrease := 2,
    maxSpeed := 50, initialSnakeLength := 3, mode := Mode.classic, timeLimit := 120,
    obstacleCount := 5, specialFoodChance := 1/10, specialFoodDuration := 5000 }

/-- Run state, mirroring this.state. -/
structure GState where
  running : Bool
  paused : Bool
  gameOver : Bool
  score : Int
  time : Int
  foodEaten : Nat
  specialFoodEaten : Nat
  powerUpActive : Bool
  powerUpType : Option PowerUpType
  powerUpEndTime : Int
deriving DecidableEq, Repr

/-- Snake state, mirroring this.snake; directions are the JS strings. -/
structure Snake where
  body : List Cell
  direction : String
  nextDirection : String
  growing : Bool
deriving DecidableEq, Repr

/-- Whole engine instance: config, state, snake, food, obstacles, and the
scheduled timers (the loop timer carries the interval it was scheduled at,
the special-food timeout carries its deadline). -/
structure Game where
  config : Config
  state : GState
  snake : Snake
  food : Food
  obstacles : List Cell
  specialFoodTimer : Option Int
  gameLoopInterval : Option ℚ
  gameTimeInterval : Bool
deriving DecidableEq, Repr

/-- Random draws and the clock value consumed by one simulation tick. -/
structure TickOracle where
  now : Int
  powerUpChoice : PowerUpType
  newFoodSpecial : Bool
  foodCands : List Cell
  extraObstacle : Bool
  obstacleCands : List Cell
deriving Repr

/-- Utils.checkCollision: same coordinates. -/
def cellsCollide (a b : Cell) : Bool :=
  decide (a.x = b.x) && decide (a.y = b.y)

/-- Utils.checkCollisionWithArray with ignoreHead = false. -/
def collidesWithList (c : Cell) (l : List Cell) : Bool :=
  l.any (fun b => cellsCollide c b)

/-- Position of the food object. -/
def foodCell (f : Food) : Cell := ⟨f.x, f.y⟩

/-- Wall test of checkCollision: the head lies outside the playfield. -/
def outOfBounds (cfg : Config) (c : Cell) : Bool :=
  decide (c.x < 0) || decide (c.x ≥ cfg.width) || decide (c.y < 0) || decide (c.y ≥ cfg.height)

/-- Test powerUpActive together with a given powerUpType. -/
def isPowerUp (st : GState) (t : PowerUpType) : Bool :=
  st.powerUpActive && decide (st.powerUpType = some t)

/-- Switch over this.snake.direction in moveSnake. -/
def dirMove (d : String) (c : Cell) : Cell :=
  if d = "up" then { c with y := c.y - 1 }
  else if d = "down" then { c with y := c.y + 1 }
  else if d = "left" then { c with x := c.x - 1 }
  else if d = "right" then { c with x := c.x + 1 }
  else c

/-- Wall-pass wrapping of the new head in moveSnake (four sequential ifs). -/
def wrapHead (cfg : Config) (st : GState) (c0 : Cell) : Cell :=
  if isPowerUp st PowerUpType.wallPass then
    let c1 := if c0.x < 0 then { c0 with x := cfg.width - 1 } else c0
    let c2 := if c1.x ≥ cfg.width then { c1 with x := 0 } else c1
    let c3 := if c2.y < 0 then { c2 with y := cfg.height - 1 } else c2
    if c3.y ≥ cfg.height then { c3 with y := 0 } else c3
  else c0

/-- New head computed by moveSnake before it is unshifted onto the body. -/
def newHeadCalc (g : Game) : Cell :=
  wrapHead g.config g.state (dirMove g.snake.direction (g.snake.body.headD ⟨0, 0⟩))

/-- Game.moveSnake: unshift the new head; pop the tail unless growing,
otherwise consume the growing flag. -/
def moveSnake (g : Game) : Game :=
  let body := newHeadCalc g :: g.snake.body
  if g.snake.growing then
    { g with snake := { g.snake with body := body, growing := false } }
  else
    { g with snake := { g.snake with body := body.dropLast } }

/-- Game.checkCollision: wall (unless wallPass), self at indices 1.. (unless
invincible), obstacles in obstacle mode (unless invincible). -/
def checkCollision (g : Game) : Bool :=
  let head := g.snake.body.headD ⟨0, 0⟩
  (!(isPowerUp g.state PowerUpType.wallPass) && outOfBounds g.config head)
  || (!(isPowerUp g.state PowerUpType.invincible) &&
        collidesWithList head (g.snake.body.drop 1))
  || (decide (g.config.mode = Mode.obstacle) && !(isPowerUp g.state PowerUpType.invincible) &&
        g.obstacles.any (fun ob => cellsCollide head ob))

/-- Game.addScore. -/
def addScore (g : Game) (points : Int) : Game :=
  { g with state := { g.state with score := g.state.score + points } }

/-- Game.activatePowerUp with the random choice passed in; 5000 ms duration. -/
def activatePowerUp (g : Game) (t : PowerUpType) (now : Int) : Game :=
  { g with state :=
    { g.state with
      powerUpActive := true, powerUpType := some t, powerUpEndTime := now + 5000 } }

/-- Game.getCurrentSpeed: base minus foodEaten times increment, times 0.7
under speedBoost, clamped from below by maxSpeed. -/
def getCurrentSpeed (g : Game) : ℚ :=
  let speed : ℚ := g.config.speed - (g.state.foodEaten : ℚ) * g.config.speedIncrease
  let speed : ℚ := if isPowerUp g.state PowerUpType.speedBoost then speed * (7/10) else speed
  max g.config.maxSpeed speed

/-- First cell of the stream of random draws accepted by a retry loop. -/
def findSpot (valid : Cell → Bool) : List Cell → Option Cell
  | [] => none
  | c :: rest => if valid c then some c else findSpot valid rest

/-- Acceptance test of the spawnFood retry loop: no overlap with the snake
body (whole body) nor with any obstacle. -/
def validFoodCell (g : Game) (c : Cell) : Bool :=
  !(collidesWithList c g.snake.body) && !(g.obstacles.any (fun ob => cellsCollide c ob))

/-- Game.spawnFood: clear the special-food timeout, then retry random cells
until one is valid (none when the supplied draws run out, the JS loop would
still be running); arm the expiry timeout when the new food is special. -/
def spawnFood (g : Game) (isSpecial : Bool) (cands : List Cell) (now : Int) : Option Game :=
  let g1 := { g with specialFoodTimer := none }
  match findSpot (validFoodCell g1) cands with
  | none => none
  | some c =>
    let f : Food :=
      { x := c.x, y := c.y, type := if isSpecial then FoodType.special else FoodType.normal }
    let g2 := { g1 with food := f }
    if isSpecial then
      some { g2 with specialFoodTimer := some (now + g2.config.specialFoodDuration) }
    else some g2

/-- Acceptance test of the spawnObstacle retry loop: no overlap with snake,
food, or other obstacles. -/
def validObstacleCell (g : Game) (c : Cell) : Bool :=
  !(collidesWithList c g.snake.body) && !(cellsCollide c (foodCell g.food)) &&
  !(g.obstacles.any (fun ob => cellsCollide c ob))

/-- Game.spawnObstacle with its random draws passed in. -/
def spawnObstacle (g : Game) (cands : List Cell) : Option Game :=
  match findSpot (validObstacleCell g) cands with
  | none => none
  | some c => some { g with obstacles := g.obstacles ++ [c] }

/-- Loop of Game.initObstacles: spawn a given number of obstacles. -/
def spawnObstacles : Game → Nat → List (List Cell) → Option Game
  | g, 0, _ => some g
  | g, n + 1, css =>
    (spawnObstacle g (css.headD [])).bind (fun g' => spawnObstacles g' n (css.drop 1))

/-- Test of checkFood: the head has landed on the food cell. -/
def eatsFood (g : Game) : Bool :=
  let head := g.snake.body.headD ⟨0, 0⟩
  decide (head.x = g.food.x) && decide (head.y = g.food.y)

/-- State updates of checkFood before the food respawn: score, counters,
power-up activation for special food, and the growing flag. -/
def postEat (g : Game) (o : TickOracle) : Game :=
  let g1 := addScore g (if g.food.type = FoodType.special then 5 else 1)
  let g2 := { g1 with state := { g1.state with foodEaten := g1.state.foodEaten + 1 } }
  let g3 :=
    if g2.food.type = FoodType.special then
      activatePowerUp
        { g2 with state := { g2.state with specialFoodEaten := g2.state.specialFoodEaten + 1 } }
        o.powerUpChoice o.now
    else g2
  { g3 with snake := { g3.snake with growing := true } }

/-- Game.checkFood: on a hit add score, bump counters, activate a power-up for
special food, set growing, respawn food, possibly spawn an obstacle, and
reschedule the loop timer at the fresh speed when it is running. -/
def checkFood (g : Game) (o : TickOracle) : Option Game :=
  if eatsFood g then
    (spawnFood (postEat g o) o.newFoodSpecial o.foodCands o.now).bind (fun g5 =>
      (if g5.config.mode = Mode.obstacle ∧ o.extraObstacle = true then
          spawnObstacle g5 o.obstacleCands
        else some g5).bind (fun g6 =>
        if g6.gameLoopInterval.isSome then
          some { g6 with gameLoopInterval := some (getCurrentSpeed g6) }
        else some g6))
  else some g

/-- Game.checkPowerUps: clear an expired power-up. -/
def checkPowerUps (g : Game) (now : Int) : Game :=
  if g.state.powerUpActive = true ∧ now ≥ g.state.powerUpEndTime then
    { g with state := { g.state with powerUpActive := false, powerUpType := none } }
  else g

/-- Game.clearTimers: cancel the loop, clock, and special-food timers. -/
def clearTimers (g : Game) : Game :=
  { g with gameLoopInterval := none, gameTimeInterval := false, specialFoodTimer := none }

/-- Game.endGame: no-op unless running; stop, mark game over, cancel timers. -/
def endGame (g : Game) : Game :=
  if g.state.running then
    clearTimers { g with state := { g.state with running := false, gameOver := true } }
  else g

/-- Direction commit at the top of gameLoop. -/
def commitDir (g : Game) : Game :=
  { g with snake := { g.snake with direction := g.snake.nextDirection } }

/-- Direction commit followed by moveSnake: the state the collision check
inspects. -/
def tickMove (g : Game) : Game := moveSnake (commitDir g)

/-- Game.gameLoop: commit direction, move, end the game on collision,
otherwise process food and power-up expiry. -/
def gameLoop (g : Game) (o : TickOracle) : Option Game :=
  let gm := tickMove g
  if checkCollision gm then some (endGame gm)
  else (checkFood gm o).map (fun g2 => checkPowerUps g2 o.now)

/-- Game.changeDirection: ignore a direct reversal of the committed
direction; anything that matches none of the four guarded cases is a no-op. -/
def changeDirection (g : Game) (d : String) : Game :=
  if (d = "up" ∧ g.snake.direction ≠ "down")
    ∨ (d = "down" ∧ g.snake.direction ≠ "up")
    ∨ (d = "left" ∧ g.snake.direction ≠ "right")
    ∨ (d = "right" ∧ g.snake.direction ≠ "left") then
    { g with snake := { g.snake with nextDirection := d } }
  else g

/-- Several changeDirection calls arriving between two ticks. -/
def applyDirCalls (g : Game) (ds : List String) : Game :=
  ds.foldl changeDirection g

/-- Run state written by the constructor and by resetState. -/
def freshState : GState :=
  { running := false, paused := false, gameOver := false, score := 0, time := 0,
    foodEaten := 0, specialFoodEaten := 0, powerUpActive := false, powerUpType := none,
    powerUpEndTime := 0 }

/-- Game.initSnake: body centred via Math.floor(width/2), heading right. -/
def initSnake (g : Game) : Game :=
  let cx : Int := Int.fdiv g.config.width 2
  let cy : Int := Int.fdiv g.config.height 2
  { g with snake :=
    { g.snake with
      body := (List.range g.config.initialSnakeLength).map
        (fun (i : Nat) => ⟨cx - (i : Int), cy⟩),
      direction := "right", nextDirection := "right" } }

/-- Game.initObstacles: empty the list then spawn obstacleCount obstacles. -/
def initObstacles (g : Game) (obsCands : List (List Cell)) : Option Game :=
  spawnObstacles { g with obstacles := [] } g.config.obstacleCount obsCands

/-- Game.resetState: fresh run state and all timers cancelled. -/
def resetState (g : Game) : Game :=
  clearTimers { g with state := freshState }

/-- Game.init on an existing instance: initSnake, spawnFood, initObstacles in
obstacle mode, then resetState. -/
def initGameOn (g : Game) (isSpecial : Bool) (foodCands : List Cell)
    (obsCands : List (List Cell)) (now : Int) : Option Game :=
  (spawnFood (initSnake g) isSpecial foodCands now).bind (fun g1 =>
    (if g1.config.mode = Mode.obstacle then initObstacles g1 obsCands else some g1).map
      (fun g2 => resetState g2))

/-- Field initialisation of the constructor, before init() runs. -/
def initialGame (cfg : Config) : Game :=
  { config := cfg, state := freshState,
    snake := { body := [], direction := "right", nextDirection := "right", growing := false },
    food := { x := 0, y := 0, type := FoodType.normal },
    obstacles := [], specialFoodTimer := none, gameLoopInterval := none,
    gameTimeInterval := false }

/-- Constructor: field initialisation followed by init(). -/
def initGame (cfg : Config) (isSpecial : Bool) (foodCands : List Cell)
    (obsCands : List (List Cell)) (now : Int) : Option Game :=
  initGameOn (initialGame cfg) isSpecial foodCands obsCands now

/-- Game.reset: clearTimers then init(). -/
def resetGame (g : Game) (isSpecial : Bool) (foodCands : List Cell)
    (obsCands : List (List Cell)) (now : Int) : Option Game :=
  initGameOn (clearTimers g) isSpecial foodCands obsCands now

/-- Game.start: no-op when running, else mark running and schedule both
periodic timers, the loop timer at the current computed speed. -/
def start (g : Game) : Game :=
  if g.state.running then g
  else
    let g1 :=
      { g with state :=
        { g.state with running := true, paused := false, gameOver := false } }
    { g1 with gameLoopInterval := some (getCurrentSpeed g1), gameTimeInterval := true }

/-- Game.pause: no-op unless running and not paused; cancel both periodic
timers. -/
def pause (g : Game) : Game :=
  if ¬ g.state.running ∨ g.state.paused then g
  else
    { g with
      state := { g.state with paused := true },
      gameLoopInterval := none, gameTimeInterval := false }

/-- Game.resume: no-op unless running and paused; restart both timers. -/
def resume (g : Game) : Game :=
  if ¬ g.state.running ∨ ¬ g.state.paused then g
  else
    let g1 := { g with state := { g.state with paused := false } }
    { g1 with gameLoopInterval := some (getCurrentSpeed g1), gameTimeInterval := true }

/-- One firing of the one-second clock timer: bump time and, in timeAttack
mode at the limit, end the game. -/
def timeTick (g : Game) : Game :=
  let g1 := { g with state := { g.state with time := g.state.time + 1 } }
  if g1.config.mode = Mode.timeAttack ∧ g1.state.time ≥ g1.config.timeLimit then endGame g1
  else g1

/-- One firing of the special-food timeout callback: respawn the food if it
is still special. -/
def specialFoodFire (g : Game) (isSpecial : Bool) (cands : List Cell) (now : Int) :
    Option Game :=
  if g.food.type = FoodType.special then spawnFood g isSpecial cands now else some g

/-- Snapshot handed to the renderer by Game.getRenderData. -/
structure RenderData where
  snake : List Cell
  food : Food
  obstacles : List Cell
  gridSize : Int
  width : Int
  height : Int
  powerUp : Option PowerUpType
deriving DecidableEq, Repr

/-- Game.getRenderData. -/
def getRenderData (g : Game) : RenderData :=
  { snake := g.snake.body, food := g.food, obstacles := g.obstacles,
    gridSize := g.config.gridSize, width := g.config.width, height := g.config.height,
    powerUp := if g.state.powerUpActive then g.state.powerUpType else none }

/-- Partial configuration: the keys present in the object handed to
setConfig (or to the constructor). -/
structure ConfigPatch where
  gridSize : Option Int := none
  width : Option Int := none
  height : Option Int := none
  speed : Option ℚ := none
  speedIncrease : Option ℚ := none
  maxSpeed : Option ℚ := none
  initialSnakeLength : Option Nat := none
  mode : Option Mode := none
  timeLimit : Option Int := none
  obstacleCount : Option Nat := none
  specialFoodChance : Option ℚ := none
  specialFoodDuration : Option Int := none
deriving Repr

/-- Shallow spread merge of a patch over a configuration. -/
def mergeConfig (c : Config) (p : ConfigPatch) : Config :=
  { gridSize := p.gridSize.getD c.gridSize,
    width := p.width.getD c.width,
    height := p.height.getD c.height,
    speed := p.speed.getD c.speed,
    speedIncrease := p.speedIncrease.getD c.speedIncrease,
    maxSpeed := p.maxSpeed.getD c.maxSpeed,
    initialSnakeLength := p.initialSnakeLength.getD c.initialSnakeLength,
    mode := p.mode.getD c.mode,
    timeLimit := p.timeLimit.getD c.timeLimit,
    obstacleCount := p.obstacleCount.getD c.obstacleCount,
    specialFoodChance := p.specialFoodChance.getD c.specialFoodChance,
    specialFoodDuration := p.specialFoodDuration.getD c.specialFoodDuration }

/-- Game.setConfig: merge the patch, and reset (with the random draws a reset
consumes) when the game is not running. -/
def setConfig (g : Game) (p : ConfigPatch) (isSpecial : Bool) (foodCands : List Cell)
    (obsCands : List (List Cell)) (now : Int) : Option Game :=
  let g1 := { g with config := mergeConfig g.config p }
  if g1.state.running then some g1
  else resetGame g1 isSpecial foodCands obsCands now

/-! Predicates written from the specification text, to be compared with the
functions embedded from the source. -/

/-- Spec data model: a cell lies within the playfield. -/
def InBounds (cfg : Config) (c : Cell) : Prop :=
  0 ≤ c.x ∧ c.x < cfg.width ∧ 0 ≤ c.y ∧ c.y < cfg.height

instance (cfg : Config) (c : Cell) : Decidable (InBounds cfg c) := by
  unfold InBounds; infer_instance

/-- Spec power-up model: the named effect is the currently active one. -/
def PowerActive (g : Game) (t : PowerUpType) : Prop :=
  g.state.powerUpActive = true ∧ g.state.powerUpType = some t

instance (g : Game) (t : PowerUpType) : Decidable (PowerActive g t) := by
  unfold PowerActive; infer_instance

/-- Collision rule written from the spec: (a) wallPass inactive and the head
outside the grid, or (b) invincible inactive and the head equal to a body
cell at index 1 or later, or (c) obstacle mode, invincible inactive, and the
head on an obstacle cell. -/
def CollidesSpec (g : Game) : Prop :=
  let head := g.snake.body.headD ⟨0, 0⟩
  (¬ PowerActive g PowerUpType.wallPass ∧ ¬ InBounds g.config head)
  ∨ (¬ PowerActive g PowerUpType.invincible ∧
      ∃ i : Fin g.snake.body.length, 1 ≤ (i : Nat) ∧ g.snake.body.get i = head)
  ∨ (g.config.mode = Mode.obstacle ∧ ¬ PowerActive g PowerUpType.invincible ∧
      head ∈ g.obstacles)

instance (g : Game) : Decidable (CollidesSpec g) := by
  unfold CollidesSpec; infer_instance

/-- Speed formula written from the spec: max(minInterval, base - eaten x inc),
the subtraction additionally multiplied by 0.7 before the clamp when
speedBoost is active. -/
def specSpeed (g : Game) : ℚ :=
  if isPowerUp g.state PowerUpType.speedBoost then
    max g.config.maxSpeed
      ((g.config.speed - (g.state.foodEaten : ℚ) * g.config.speedIncrease) * (7/10))
  else
    max g.config.maxSpeed (g.config.speed - (g.state.foodEaten : ℚ) * g.config.speedIncrease)

/-- Spec input model: one of the four cardinal direction values. -/
def IsCardinal (d : String) : Prop :=
  d = "up" ∨ d = "down" ∨ d = "left" ∨ d = "right"

/-- Spec input model: the candidate is the exact reverse of the committed
direction. -/
def IsReversal (cur d : String) : Prop :=
  (d = "up" ∧ cur = "down") ∨ (d = "down" ∧ cur = "up") ∨
  (d = "left" ∧ cur = "right") ∨ (d = "right" ∧ cur = "left")

/-- Spec validity of a direction input against the committed direction. -/
def ValidDir (cur d : String) : Prop := IsCardinal d ∧ ¬ IsReversal cur d

instance (cur d : String) : Decidable (IsCardinal d) := by
  unfold IsCardinal; infer_instance

instance (cur d : String) : Decidable (IsReversal cur d) := by
  unfold IsReversal; infer_instance

instance (cur d : String) : Decidable (ValidDir cur d) := by
  unfold ValidDir IsCardinal IsReversal; infer_instance

/-! Event model for reachability: the ways engine state evolves after
construction. Simulation ticks fire only while running (the loop timer is
cancelled whenever running is cleared), the clock tick only while scheduled,
and the special-food timeout only while pending. The start event carries a
guard, gameOver = false: starting a game-over instance resumes the dead
snake unchanged, which is the correction recorded for the bounds claim. -/
inductive ReachFrom (g0 : Game) : Game → Prop where
  | refl : ReachFrom g0 g0
  | tick {g g' : Game} (o : TickOracle) : ReachFrom g0 g → g.state.running = true →
      gameLoop g o = some g' → ReachFrom g0 g'
  | dir {g : Game} (d : String) : ReachFrom g0 g → ReachFrom g0 (changeDirection g d)
  | startEv {g : Game} : ReachFrom g0 g → g.state.gameOver = false → ReachFrom g0 (start g)
  | pauseEv {g : Game} : ReachFrom g0 g → ReachFrom g0 (pause g)
  | resumeEv {g : Game} : ReachFrom g0 g → ReachFrom g0 (resume g)
  | clockEv {g : Game} : ReachFrom g0 g → g.gameTimeInterval = true →
      ReachFrom g0 (timeTick g)
  | foodTimerEv {g g' : Game} (isSp : Bool) (cands : List Cell) (now : Int) :
      ReachFrom g0 g → g.specialFoodTimer.isSome = true →
      specialFoodFire g isSp cands now = some g' → ReachFrom g0 g'

/-- Well-formedness of a base state: positive grid, not yet game over, and a
nonempty snake lying inside the grid (what initialisation produces for any
configuration whose initial snake fits the board). -/
def InitOK (g : Game) : Prop :=
  1 ≤ g.config.width ∧ 1 ≤ g.config.height ∧ g.state.gameOver = false ∧
  g.snake.body ≠ [] ∧ ∀ c ∈ g.snake.body, InBounds g.config c

instance (g : Game) : Decidable (InitOK g) := by
  unfold InitOK; infer_instance

/-! Concrete engine states and oracles used by witnesses and
counterexamples. -/

/-- Oracle with benign draws: normal food at the first free corner cell. -/
def exOracle0 : TickOracle :=
  { now := 0, powerUpChoice := PowerUpType.speedBoost, newFoodSpecial := false,
    foodCands := [⟨0, 0⟩], extraObstacle := false, obstacleCands := [] }

/-- Running classic game whose next move lands exactly on the food. -/
def exGameC2 : Game :=
  { config := defaultConfig,
    state := { freshState with running := true },
    snake := { body := [⟨5, 5⟩, ⟨4, 5⟩, ⟨3, 5⟩], direction := "right", nextDirection := "right", growing := false },
    food := { x := 6, y := 5, type := FoodType.normal },
    obstacles := [], specialFoodTimer := none, gameLoopInterval := some 150,
    gameTimeInterval := true }

/-- Running game with an active speedBoost that has already passed its
deadline; the loop timer still runs at the boosted interval 105 = 150 x 0.7. -/
def exGameC4 : Game :=
  { config := defaultConfig,
    state := { freshState with
               running := true,
               powerUpActive := true,
               powerUpType := some PowerUpType.speedBoost,
               powerUpEndTime := 1000 },
    snake := { body := [⟨5, 5⟩], direction := "right", nextDirection := "right", growing := false },
    food := { x := 20, y := 15, type := FoodType.normal },
    obstacles := [], specialFoodTimer := none, gameLoopInterval := some 105,
    gameTimeInterval := true }

/-- Oracle whose clock is past the power-up deadline of exGameC4. -/
def exOracleC4 : TickOracle :=
  { now := 2000, powerUpChoice := PowerUpType.speedBoost, newFoodSpecial := false,
    foodCands := [⟨0, 0⟩], extraObstacle := false, obstacleCands := [] }

/-- Fully occupied 2x2 board: the snake covers every cell of the grid. -/
def exGameFull : Game :=
  { config := { defaultConfig with width := 2, height := 2, initialSnakeLength := 4 },
    state := { freshState with running := true },
    snake := { body := [⟨0, 0⟩, ⟨0, 1⟩, ⟨1, 0⟩, ⟨1, 1⟩], direction := "right", nextDirection := "right", growing := false },
    food := { x := 0, y := 0, type := FoodType.normal },
    obstacles := [], specialFoodTimer := none, gameLoopInterval := some 150,
    gameTimeInterval := true }

/-- Idle game whose growing flag is still set (food was eaten on the very
tick the previous run ended on). -/
def exGameC9 : Game :=
  { config := defaultConfig,
    state := freshState,
    snake := { body := [⟨5, 5⟩], direction := "up", nextDirection := "up", growing := true },
    food := { x := 20, y := 15, type := FoodType.normal },
    obstacles := [], specialFoodTimer := none, gameLoopInterval := none,
    gameTimeInterval := false }

/-- Running game on a 3x3 board whose next move crosses the right wall. -/
def exGameC10pre : Game :=
  { config := { defaultConfig with width := 3, height := 3, initialSnakeLength := 1 },
    state := { freshState with running := true },
    snake := { body := [⟨2, 1⟩], direction := "right", nextDirection := "right", growing := false },
    food := { x := 0, y := 0, type := FoodType.normal },
    obstacles := [], specialFoodTimer := none, gameLoopInterval := some 150,
    gameTimeInterval := true }

/-- State exGameC10pre reaches after its wall-collision tick. -/
def exGameC10dead : Game :=
  { config := { defaultConfig with width := 3, height := 3, initialSnakeLength := 1 },
    state := { freshState with gameOver := true },
    snake := { body := [⟨3, 1⟩], direction := "right", nextDirection := "right", growing := false },
    food := { x := 0, y := 0, type := FoodType.normal },
    obstacles := [], specialFoodTimer := none, gameLoopInterval := none,
    gameTimeInterval := false }

/-- Obstacle-mode game about to move onto an obstacle cell that also holds
the food. -/
def exGameC8 : Game :=
  { config := { defaultConfig with mode := Mode.obstacle },
    state := { freshState with running := true, score := 7, foodEaten := 4 },
    snake := { body := [⟨5, 5⟩, ⟨4, 5⟩], direction := "right", nextDirection := "right", growing := false },
    food := { x := 6, y := 5, type := FoodType.normal },
    obstacles := [⟨6, 5⟩], specialFoodTimer := none, gameLoopInterval := some 150,
    gameTimeInterval := true }

/-! Helper lemmas. -/

lemma isPowerUp_true_iff (st : GState) (t : PowerUpType) :
    isPowerUp st t = true ↔ (st.powerUpActive = true ∧ st.powerUpType = some t) := by
  simp [isPowerUp]

lemma isPowerUp_foodEaten (st : GState) (n : Nat) (t : PowerUpType) :
    isPowerUp { st with foodEaten := n } t = isPowerUp st t := rfl

/-! Claim C5: the speed formula. -/

/-- C5: getCurrentSpeed equals the spec formula
max(minInterval, base - foodEaten x increment), the subtraction multiplied
by 0.7 before the clamp when speedBoost is active; for a fixed power-up
state it is non-increasing in foodEaten whenever the configured increment
is nonnegative; and it never falls below the floor maxSpeed. -/
theorem c5_speed_formula (g : Game) :
    getCurrentSpeed g = specSpeed g
    ∧ (∀ f₁ f₂ : Nat, f₁ ≤ f₂ → 0 ≤ g.config.speedIncrease →
        getCurrentSpeed { g with state := { g.state with foodEaten := f₂ } } ≤
          getCurrentSpeed { g with state := { g.state with foodEaten := f₁ } })
    ∧ g.config.maxSpeed ≤ getCurrentSpeed g := by
  refine ⟨?_, ?_, ?_⟩
  · unfold getCurrentSpeed specSpeed
    by_cases h : isPowerUp g.state PowerUpType.speedBoost = true <;> simp [h]
  · intro f₁ f₂ hf hinc
    unfold getCurrentSpeed
    have hmono : g.config.speed - (f₂ : ℚ) * g.config.speedIncrease ≤
        g.config.speed - (f₁ : ℚ) * g.config.speedIncrease := by
      have hcast : (f₁ : ℚ) ≤ (f₂ : ℚ) := by exact_mod_cast hf
      nlinarith
    simp only [getCurrentSpeed, isPowerUp_foodEaten]
    by_cases h : isPowerUp g.state PowerUpType.speedBoost = true
    · rw [if_pos h, if_pos h]
      exact max_le_max le_rfl (mul_le_mul_of_nonneg_right hmono (by norm_num))
    · rw [if_neg h, if_neg h]
      exact max_le_max le_rfl hmono
  · unfold getCurrentSpeed
    exact le_max_left _ _

/-- Witness for C5 at a concrete game, one food step apart. -/
theorem c5_speed_formula_witness :
    ((1 : Nat) ≤ 2 ∧ (0 : ℚ) ≤ exGameC2.config.speedIncrease)
    ∧ getCurrentSpeed exGameC2 = specSpeed exGameC2
    ∧ getCurrentSpeed { exGameC2 with state := { exGameC2.state with foodEaten := 2 } } ≤
        getCurrentSpeed { exGameC2 with state := { exGameC2.state with foodEaten := 1 } } :=
  ⟨⟨by decide, by decide⟩, (c5_speed_formula exGameC2).1,
    (c5_speed_formula exGameC2).2.1 1 2 (by decide) (by decide)⟩

/-! Claim C3: special food spawned at construction or reset has its expiry
timeout cancelled immediately by resetState, so it is never replaced. -/

/-- C3: constructing the engine with a special-food draw leaves the food
special but the special-food timeout already cancelled (init arms it inside
spawnFood and then clears it in resetState), so no replacement at the
configured lifetime can ever fire for it. -/
theorem c3_construction_cancels_special_timer :
    (initGame defaultConfig true [⟨0, 0⟩] [] 0).map
        (fun g => (g.food.type, g.specialFoodTimer)) = some (FoodType.special, none)
    ∧ (initGame defaultConfig true [⟨0, 0⟩] [] 0).map (fun g => g.state.gameOver)
        = some false := by
  constructor <;> decide

/-! Claim C6: the spawn retry loop has no cap and no failure path; on the
fully occupied board it simply never terminates. -/

lemma validFoodCell_exGameFull_false (c : Cell)
    (h : 0 ≤ c.x ∧ c.x < 2 ∧ 0 ≤ c.y ∧ c.y < 2) :
    validFoodCell { exGameFull with specialFoodTimer := none } c = false := by
  have hc : c = ⟨0, 0⟩ ∨ c = ⟨0, 1⟩ ∨ c = ⟨1, 0⟩ ∨ c = ⟨1, 1⟩ := by
    obtain ⟨x, y⟩ := c
    simp only [Cell.mk.injEq]
    dsimp only at h
    omega
  rcases hc with rfl | rfl | rfl | rfl <;> decide

lemma spawnFood_exGameFull_none (cands : List Cell)
    (h : ∀ c ∈ cands, 0 ≤ c.x ∧ c.x < 2 ∧ 0 ≤ c.y ∧ c.y < 2) :
    spawnFood exGameFull false cands 0 = none := by
  simp only [spawnFood]
  suffices hs :
      findSpot (validFoodCell { exGameFull with specialFoodTimer := none }) cands = none by
    rw [hs]
  induction cands with
  | nil => rfl
  | cons c rest ih =>
    have hc := validFoodCell_exGameFull_false c (h c (List.mem_cons_self c rest))
    simp only [findSpot, hc, Bool.false_eq_true, if_false]
    exact ih (fun c' hc' => h c' (List.mem_cons_of_mem c hc'))

/-- C6: on the fully occupied 2x2 board, the food spawn never returns for a
random draw stream of any length: every candidate the engine can draw lies
inside the grid and is rejected, there is no retry cap, and no failure value
is ever produced (the JS loop spins forever). -/
theorem c6_spawn_unbounded_retry (draws : Nat → Fin 2 × Fin 2) (n : Nat) :
    spawnFood exGameFull false
      ((List.range n).map (fun i => ⟨((draws i).1 : Nat), ((draws i).2 : Nat)⟩)) 0 = none := by
  apply spawnFood_exGameFull_none
  intro c hc
  simp only [List.mem_map, List.mem_range] at hc
  obtain ⟨i, _, rfl⟩ := hc
  dsimp only
  refine ⟨by positivity, ?_, by positivity, ?_⟩
  · exact_mod_cast (draws i).1.isLt
  · exact_mod_cast (draws i).2.isLt

/-! Projection and preservation lemmas for the tick pipeline. -/

@[simp] lemma commitDir_config (g : Game) : (commitDir g).config = g.config := rfl

@[simp] lemma commitDir_state (g : Game) : (commitDir g).state = g.state := rfl

@[simp] lemma commitDir_body (g : Game) : (commitDir g).snake.body = g.snake.body := rfl

@[simp] lemma commitDir_growing (g : Game) : (commitDir g).snake.growing = g.snake.growing := rfl

@[simp] lemma commitDir_direction (g : Game) :
    (commitDir g).snake.direction = g.snake.nextDirection := rfl

@[simp] lemma commitDir_food (g : Game) : (commitDir g).food = g.food := rfl

@[simp] lemma commitDir_obstacles (g : Game) : (commitDir g).obstacles = g.obstacles := rfl

@[simp] lemma commitDir_gameLoopInterval (g : Game) :
    (commitDir g).gameLoopInterval = g.gameLoopInterval := rfl

lemma moveSnake_body (g : Game) :
    (moveSnake g).snake.body =
      if g.snake.growing = true then newHeadCalc g :: g.snake.body
      else (newHeadCalc g :: g.snake.body).dropLast := by
  unfold moveSnake; split_ifs <;> rfl

@[simp] lemma moveSnake_state (g : Game) : (moveSnake g).state = g.state := by
  unfold moveSnake; split_ifs <;> rfl

@[simp] lemma moveSnake_config (g : Game) : (moveSnake g).config = g.config := by
  unfold moveSnake; split_ifs <;> rfl

@[simp] lemma moveSnake_food (g : Game) : (moveSnake g).food = g.food := by
  unfold moveSnake; split_ifs <;> rfl

@[simp] lemma moveSnake_obstacles (g : Game) : (moveSnake g).obstacles = g.obstacles := by
  unfold moveSnake; split_ifs <;> rfl

@[simp] lemma moveSnake_gameLoopInterval (g : Game) :
    (moveSnake g).gameLoopInterval = g.gameLoopInterval := by
  unfold moveSnake; split_ifs <;> rfl

@[simp] lemma moveSnake_direction (g : Game) :
    (moveSnake g).snake.direction = g.snake.direction := by
  unfold moveSnake; split_ifs <;> rfl

@[simp] lemma moveSnake_nextDirection (g : Game) :
    (moveSnake g).snake.nextDirection = g.snake.nextDirection := by
  unfold moveSnake; split_ifs <;> rfl

@[simp] lemma moveSnake_growing (g : Game) : (moveSnake g).snake.growing = false := by
  unfold moveSnake
  split_ifs with h
  · rfl
  · simpa using h

lemma moveSnake_length (g : Game) :
    (moveSnake g).snake.body.length =
      g.snake.body.length + (if g.snake.growing = true then 1 else 0) := by
  rw [moveSnake_body]
  split_ifs <;> simp [List.length_dropLast]

lemma dropLast_cons_of_ne_nil {α : Type} (a : α) {l : List α} (h : l ≠ []) :
    (a :: l).dropLast = a :: l.dropLast := by
  cases l with
  | nil => exact absurd rfl h
  | cons b t => rfl

lemma tickMove_body_ne {g : Game} (h : g.snake.body ≠ []) :
    (tickMove g).snake.body ≠ [] := by
  unfold tickMove
  rw [moveSnake_body]
  split_ifs
  · simp
  · rw [commitDir_body, dropLast_cons_of_ne_nil _ h]
    simp

lemma tickMove_head {g : Game} (h : g.snake.body ≠ []) :
    (tickMove g).snake.body.headD ⟨0, 0⟩ = newHeadCalc (commitDir g) := by
  unfold tickMove
  rw [moveSnake_body]
  split_ifs
  · rfl
  · rw [commitDir_body, dropLast_cons_of_ne_nil _ h]
    rfl

lemma tickMove_mem_body {g : Game} {c : Cell} (h : c ∈ (tickMove g).snake.body) :
    c = newHeadCalc (commitDir g) ∨ c ∈ g.snake.body := by
  unfold tickMove at h
  rw [moveSnake_body, commitDir_body] at h
  split_ifs at h
  · simpa using h
  · have := List.dropLast_subset _ h
    simpa using this

@[simp] lemma checkPowerUps_snake (g : Game) (now : Int) :
    (checkPowerUps g now).snake = g.snake := by
  unfold checkPowerUps; split_ifs <;> rfl

@[simp] lemma checkPowerUps_config (g : Game) (now : Int) :
    (checkPowerUps g now).config = g.config := by
  unfold checkPowerUps; split_ifs <;> rfl

@[simp] lemma checkPowerUps_food (g : Game) (now : Int) :
    (checkPowerUps g now).food = g.food := by
  unfold checkPowerUps; split_ifs <;> rfl

@[simp] lemma checkPowerUps_obstacles (g : Game) (now : Int) :
    (checkPowerUps g now).obstacles = g.obstacles := by
  unfold checkPowerUps; split_ifs <;> rfl

@[simp] lemma checkPowerUps_gameLoopInterval (g : Game) (now : Int) :
    (checkPowerUps g now).gameLoopInterval = g.gameLoopInterval := by
  unfold checkPowerUps; split_ifs <;> rfl

@[simp] lemma checkPowerUps_gameOver (g : Game) (now : Int) :
    (checkPowerUps g now).state.gameOver = g.state.gameOver := by
  unfold checkPowerUps; split_ifs <;> rfl

@[simp] lemma checkPowerUps_running (g : Game) (now : Int) :
    (checkPowerUps g now).state.running = g.state.running := by
  unfold checkPowerUps; split_ifs <;> rfl

@[simp] lemma checkPowerUps_paused (g : Game) (now : Int) :
    (checkPowerUps g now).state.paused = g.state.paused := by
  unfold checkPowerUps; split_ifs <;> rfl

@[simp] lemma checkPowerUps_score (g : Game) (now : Int) :
    (checkPowerUps g now).state.score = g.state.score := by
  unfold checkPowerUps; split_ifs <;> rfl

@[simp] lemma checkPowerUps_foodEaten (g : Game) (now : Int) :
    (checkPowerUps g now).state.foodEaten = g.state.foodEaten := by
  unfold checkPowerUps; split_ifs <;> rfl

lemma checkPowerUps_of_not_expired {g : Game} {now : Int}
    (h : ¬ (g.state.powerUpActive = true ∧ now ≥ g.state.powerUpEndTime)) :
    checkPowerUps g now = g := by
  unfold checkPowerUps; rw [if_neg h]

lemma endGame_of_running {g : Game} (h : g.state.running = true) :
    endGame g =
      { g with
        state := { g.state with running := false, gameOver := true },
        gameLoopInterval := none, gameTimeInterval := false, specialFoodTimer := none } := by
  unfold endGame clearTimers
  rw [if_pos h]

@[simp] lemma endGame_snake (g : Game) : (endGame g).snake = g.snake := by
  unfold endGame clearTimers; split_ifs <;> rfl

@[simp] lemma endGame_config (g : Game) : (endGame g).config = g.config := by
  unfold endGame clearTimers; split_ifs <;> rfl

@[simp] lemma endGame_food (g : Game) : (endGame g).food = g.food := by
  unfold endGame clearTimers; split_ifs <;> rfl

@[simp] lemma endGame_obstacles (g : Game) : (endGame g).obstacles = g.obstacles := by
  unfold endGame clearTimers; split_ifs <;> rfl

@[simp] lemma endGame_score (g : Game) : (endGame g).state.score = g.state.score := by
  unfold endGame clearTimers; split_ifs <;> rfl

@[simp] lemma endGame_foodEaten (g : Game) :
    (endGame g).state.foodEaten = g.state.foodEaten := by
  unfold endGame clearTimers; split_ifs <;> rfl

@[simp] lemma endGame_powerUpActive (g : Game) :
    (endGame g).state.powerUpActive = g.state.powerUpActive := by
  unfold endGame clearTimers; split_ifs <;> rfl

@[simp] lemma endGame_powerUpType (g : Game) :
    (endGame g).state.powerUpType = g.state.powerUpType := by
  unfold endGame clearTimers; split_ifs <;> rfl

lemma endGame_gameOver_of_running {g : Game} (h : g.state.running = true) :
    (endGame g).state.gameOver = true := by
  rw [endGame_of_running h]

lemma endGame_running_of_running {g : Game} (h : g.state.running = true) :
    (endGame g).state.running = false := by
  rw [endGame_of_running h]

lemma tickMove_growing (g : Game) : (tickMove g).snake.growing = false := by
  unfold tickMove
  rw [moveSnake_growing]

lemma postEat_proj (g : Game) (o : TickOracle) :
    (postEat g o).snake.body = g.snake.body
    ∧ (postEat g o).config = g.config
    ∧ (postEat g o).state.gameOver = g.state.gameOver
    ∧ (postEat g o).state.running = g.state.running
    ∧ (postEat g o).state.paused = g.state.paused
    ∧ (postEat g o).snake.direction = g.snake.direction
    ∧ (postEat g o).snake.nextDirection = g.snake.nextDirection
    ∧ (postEat g o).food = g.food
    ∧ (postEat g o).obstacles = g.obstacles
    ∧ (postEat g o).gameLoopInterval = g.gameLoopInterval
    ∧ (postEat g o).state.foodEaten = g.state.foodEaten + 1
    ∧ (postEat g o).snake.growing = true := by
  simp only [postEat, addScore, activatePowerUp]
  split_ifs <;> simp

lemma postEat_power_special {g : Game} (o : TickOracle)
    (h : g.food.type = FoodType.special) :
    (postEat g o).state.powerUpActive = true
    ∧ (postEat g o).state.powerUpType = some o.powerUpChoice
    ∧ (postEat g o).state.powerUpEndTime = o.now + 5000 := by
  simp only [postEat, addScore, activatePowerUp]
  split_ifs
  exact ⟨rfl, rfl, rfl⟩

lemma postEat_power_normal {g : Game} (o : TickOracle)
    (h : ¬ g.food.type = FoodType.special) :
    (postEat g o).state.powerUpActive = g.state.powerUpActive
    ∧ (postEat g o).state.powerUpType = g.state.powerUpType
    ∧ (postEat g o).state.powerUpEndTime = g.state.powerUpEndTime := by
  simp only [postEat, addScore, activatePowerUp]
  split_ifs
  exact ⟨rfl, rfl, rfl⟩

lemma spawnFood_some {g : Game} {isSp : Bool} {cands : List Cell} {now : Int} {g' : Game}
    (h : spawnFood g isSp cands now = some g') :
    g'.snake = g.snake ∧ g'.state = g.state ∧ g'.config = g.config ∧
    g'.obstacles = g.obstacles ∧ g'.gameLoopInterval = g.gameLoopInterval := by
  simp only [spawnFood] at h
  cases hf : findSpot (validFoodCell { g with specialFoodTimer := none }) cands with
  | none => rw [hf] at h; exact absurd h (by simp)
  | some c =>
    rw [hf] at h
    split_ifs at h with hs
    · have he := Option.some.inj h
      subst he
      exact ⟨rfl, rfl, rfl, rfl, rfl⟩
    · have he := Option.some.inj h
      subst he
      exact ⟨rfl, rfl, rfl, rfl, rfl⟩

lemma spawnObstacle_some {g : Game} {cands : List Cell} {g' : Game}
    (h : spawnObstacle g cands = some g') :
    g'.snake = g.snake ∧ g'.state = g.state ∧ g'.config = g.config ∧
    g'.food = g.food ∧ g'.gameLoopInterval = g.gameLoopInterval ∧
    g'.specialFoodTimer = g.specialFoodTimer := by
  simp only [spawnObstacle] at h
  cases hf : findSpot (validObstacleCell g) cands with
  | none => rw [hf] at h; exact absurd h (by simp)
  | some c =>
    rw [hf] at h
    have he := Option.some.inj h
    subst he
    exact ⟨rfl, rfl, rfl, rfl, rfl, rfl⟩

lemma checkFood_some {g : Game} {o : TickOracle} {g2 : Game}
    (h : checkFood g o = some g2) :
    g2.snake.body = g.snake.body ∧ g2.config = g.config ∧
    g2.state.gameOver = g.state.gameOver ∧ g2.state.running = g.state.running ∧
    g2.state.paused = g.state.paused ∧ g2.snake.direction = g.snake.direction ∧
    g2.snake.nextDirection = g.snake.nextDirection := by
  unfold checkFood at h
  split_ifs at h with he
  case neg =>
    have h2 := Option.some.inj h
    subst h2
    exact ⟨rfl, rfl, rfl, rfl, rfl, rfl, rfl⟩
  case pos =>
    obtain ⟨g5, h5, h⟩ := Option.bind_eq_some.mp h
    obtain ⟨g6, h6, h⟩ := Option.bind_eq_some.mp h
    obtain ⟨hsn5, hst5, hc5, hob5, hil5⟩ := spawnFood_some h5
    have hp := postEat_proj g o
    have key6 : g6.snake = g5.snake ∧ g6.state = g5.state ∧ g6.config = g5.config := by
      split_ifs at h6
      · obtain ⟨a, b, c, _, _, _⟩ := spawnObstacle_some h6
        exact ⟨a, b, c⟩
      · have h7 := Option.some.inj h6
        subst h7
        exact ⟨rfl, rfl, rfl⟩
    obtain ⟨hsn6, hst6, hc6⟩ := key6
    have hg2 : g2.snake = g6.snake ∧ g2.state = g6.state ∧ g2.config = g6.config := by
      split_ifs at h
      · have h8 := Option.some.inj h
        subst h8
        exact ⟨rfl, rfl, rfl⟩
      · have h8 := Option.some.inj h
        subst h8
        exact ⟨rfl, rfl, rfl⟩
    obtain ⟨hsn2, hst2, hc2⟩ := hg2
    refine ⟨?_, ?_, ?_, ?_, ?_, ?_, ?_⟩
    · rw [hsn2, hsn6, hsn5, hp.1]
    · rw [hc2, hc6, hc5, hp.2.1]
    · rw [hst2, hst6, hst5, hp.2.2.1]
    · rw [hst2, hst6, hst5, hp.2.2.2.1]
    · rw [hst2, hst6, hst5, hp.2.2.2.2.1]
    · rw [hsn2, hsn6, hsn5, hp.2.2.2.2.2.1]
    · rw [hsn2, hsn6, hsn5, hp.2.2.2.2.2.2.1]

/-- Shape of a completed tick: either a collision ended it via endGame, or
food and power-up processing ran on the moved state. -/
lemma gameLoop_cases {g : Game} {o : TickOracle} {g' : Game}
    (h : gameLoop g o = some g') :
    (checkCollision (tickMove g) = true ∧ g' = endGame (tickMove g))
    ∨ (checkCollision (tickMove g) = false ∧
        ∃ g2, checkFood (tickMove g) o = some g2 ∧ g' = checkPowerUps g2 o.now) := by
  simp only [gameLoop] at h
  split_ifs at h with hc
  · exact Or.inl ⟨hc, (Option.some.inj h).symm⟩
  · obtain ⟨g2, h2, h3⟩ := Option.map_eq_some'.mp h
    exact Or.inr ⟨by simpa using hc, g2, h2, h3.symm⟩

/-! Claim C2: snake length across a tick. -/

/-- C2 counterexample: a tick that eats food (foodEaten goes 0 to 1) while
the growing flag is clear leaves the body length at 3 instead of the 4 the
claim requires. -/
theorem c2_counterexample :
    exGameC2.snake.body.length = 3
    ∧ exGameC2.state.foodEaten = 0
    ∧ exGameC2.snake.growing = false
    ∧ (gameLoop exGameC2 exOracle0).map (fun g => g.state.foodEaten) = some 1
    ∧ (gameLoop exGameC2 exOracle0).map (fun g => g.snake.body.length) = some 3 := by
  refine ⟨by decide, by decide, by decide, by decide, by decide⟩

/-- C2 amended: across a completed tick the body length grows by one exactly
when the growing flag was set at the start of the tick; eating food in the
tick only sets the flag (visible as the growing flag of the post-tick state),
so the extra cell appears one tick later. -/
theorem c2_length_deferred_growth (g : Game) (o : TickOracle) (g' : Game)
    (h : gameLoop g o = some g') :
    g'.snake.body.length =
      g.snake.body.length + (if g.snake.growing = true then 1 else 0)
    ∧ g'.snake.growing =
        (!(checkCollision (tickMove g)) && eatsFood (tickMove g)) := by
  have hlen : (tickMove g).snake.body.length =
      g.snake.body.length + (if g.snake.growing = true then 1 else 0) := by
    unfold tickMove
    rw [moveSnake_length]
    simp [commitDir]
  rcases gameLoop_cases h with ⟨hc, rfl⟩ | ⟨hc, g2, h2, rfl⟩
  · constructor
    · rw [endGame_snake]
      exact hlen
    · have hg : (endGame (tickMove g)).snake.growing = (tickMove g).snake.growing := by
        rw [endGame_snake]
      rw [hg, tickMove_growing, hc]
      simp
  · obtain ⟨hbody, _, _, _, _, _, _⟩ := checkFood_some h2
    constructor
    · rw [checkPowerUps_snake, hbody, hlen]
    · rw [checkPowerUps_snake, hc]
      simp only [Bool.not_false, Bool.true_and]
      unfold checkFood at h2
      split_ifs at h2 with he
      · obtain ⟨g5, h5, h6⟩ := Option.bind_eq_some.mp h2
        obtain ⟨g6, h6, h7⟩ := Option.bind_eq_some.mp h6
        obtain ⟨hsn5, _, _, _, _⟩ := spawnFood_some h5
        have hg : (postEat (tickMove g) o).snake.growing = true := (postEat_proj _ o).2.2.2.2.2.2.2.2.2.2.2
        have hsn6 : g6.snake = g5.snake := by
          split_ifs at h6
          · exact (spawnObstacle_some h6).1
          · rw [← Option.some.inj h6]
        have hsn2 : g2.snake = g6.snake := by
          split_ifs at h7 <;> rw [← Option.some.inj h7]
        rw [hsn2, hsn6, hsn5, hg, he]
      · rw [← Option.some.inj h2]
        unfold tickMove
        rw [moveSnake_growing]
        simpa using he

/-- Witness for the amended C2 at the concrete eating tick. -/
theorem c2_length_deferred_growth_witness :
    gameLoop exGameC2 exOracle0 ≠ none
    ∧ ∃ g', gameLoop exGameC2 exOracle0 = some g'
        ∧ g'.snake.body.length =
            exGameC2.snake.body.length + (if exGameC2.snake.growing = true then 1 else 0)
        ∧ g'.snake.growing =
            (!(checkCollision (tickMove exGameC2)) && eatsFood (tickMove exGameC2)) := by
  refine ⟨by decide, ?_⟩
  cases hg : gameLoop exGameC2 exOracle0 with
  | none => exact absurd hg (by decide)
  | some g' => exact ⟨g', rfl, c2_length_deferred_growth exGameC2 exOracle0 g' hg⟩

/-! Claim C4: timer rescheduling. -/

lemma tickMove_state (g : Game) : (tickMove g).state = g.state := by
  unfold tickMove; rw [moveSnake_state, commitDir_state]

lemma tickMove_food (g : Game) : (tickMove g).food = g.food := by
  unfold tickMove; rw [moveSnake_food, commitDir_food]

lemma tickMove_config (g : Game) : (tickMove g).config = g.config := by
  unfold tickMove; rw [moveSnake_config, commitDir_config]

lemma tickMove_obstacles (g : Game) : (tickMove g).obstacles = g.obstacles := by
  unfold tickMove; rw [moveSnake_obstacles, commitDir_obstacles]

lemma tickMove_gameLoopInterval (g : Game) :
    (tickMove g).gameLoopInterval = g.gameLoopInterval := by
  unfold tickMove; rw [moveSnake_gameLoopInterval, commitDir_gameLoopInterval]

lemma getCurrentSpeed_congr {g1 g2 : Game} (hc : g1.config = g2.config)
    (hs : g1.state.foodEaten = g2.state.foodEaten)
    (hb : isPowerUp g1.state PowerUpType.speedBoost
        = isPowerUp g2.state PowerUpType.speedBoost) :
    getCurrentSpeed g1 = getCurrentSpeed g2 := by
  unfold getCurrentSpeed
  rw [hc, hs, hb]

lemma getCurrentSpeed_params {g : Game} {s i m : ℚ} {f : Nat}
    (hs : g.config.speed = s) (hi : g.config.speedIncrease = i)
    (hm : g.config.maxSpeed = m) (hf : g.state.foodEaten = f)
    (hb : isPowerUp g.state PowerUpType.speedBoost = false) :
    getCurrentSpeed g = max m (s - (f : ℚ) * i) := by
  simp only [getCurrentSpeed, hb, hs, hi, hm, hf]
  simp

lemma getCurrentSpeed_params_boost {g : Game} {s i m : ℚ} {f : Nat}
    (hs : g.config.speed = s) (hi : g.config.speedIncrease = i)
    (hm : g.config.maxSpeed = m) (hf : g.state.foodEaten = f)
    (hb : isPowerUp g.state PowerUpType.speedBoost = true) :
    getCurrentSpeed g = max m ((s - (f : ℚ) * i) * (7/10)) := by
  simp only [getCurrentSpeed, hb, hs, hi, hm, hf]
  simp

lemma getCurrentSpeed_exGameC4 : getCurrentSpeed exGameC4 = 105 := by
  rw [getCurrentSpeed_params_boost (s := 150) (i := 2) (m := 50) (f := 0)
    rfl rfl rfl rfl (by decide)]
  rw [show ((150 : ℚ) - ((0 : Nat) : ℚ) * 2) * (7/10) = 105 by norm_num]
  exact max_eq_right (by norm_num)

/-- C4 counterexample: a tick on which the active speedBoost expires without
food being eaten leaves the loop timer at the stale boosted interval 105
while the speed formula of the resulting state computes 150. -/
theorem c4_counterexample :
    exGameC4.gameLoopInterval = some (getCurrentSpeed exGameC4)
    ∧ (gameLoop exGameC4 exOracleC4).map
        (fun g => (g.state.powerUpActive, g.gameLoopInterval))
        = some (false, some (105 : ℚ))
    ∧ (gameLoop exGameC4 exOracleC4).map (fun g => getCurrentSpeed g) = some (150 : ℚ) := by
  refine ⟨?_, by decide, ?_⟩
  · rw [getCurrentSpeed_exGameC4]
    rfl
  · cases hg : gameLoop exGameC4 exOracleC4 with
    | none => exact absurd hg (by decide)
    | some g' =>
      rw [Option.map_some']
      have hs : g'.config.speed = 150 := by
        have h := congrArg (Option.map (fun g => g.config.speed)) hg
        rw [show (gameLoop exGameC4 exOracleC4).map (fun g => g.config.speed)
            = some (150 : ℚ) by decide] at h
        exact (Option.some.inj h.symm)
      have hi : g'.config.speedIncrease = 2 := by
        have h := congrArg (Option.map (fun g => g.config.speedIncrease)) hg
        rw [show (gameLoop exGameC4 exOracleC4).map (fun g => g.config.speedIncrease)
            = some (2 : ℚ) by decide] at h
        exact (Option.some.inj h.symm)
      have hm : g'.config.maxSpeed = 50 := by
        have h := congrArg (Option.map (fun g => g.config.maxSpeed)) hg
        rw [show (gameLoop exGameC4 exOracleC4).map (fun g => g.config.maxSpeed)
            = some (50 : ℚ) by decide] at h
        exact (Option.some.inj h.symm)
      have hf : g'.state.foodEaten = 0 := by
        have h := congrArg (Option.map (fun g => g.state.foodEaten)) hg
        rw [show (gameLoop exGameC4 exOracleC4).map (fun g => g.state.foodEaten)
            = some 0 by decide] at h
        exact (Option.some.inj h.symm)
      have hb : isPowerUp g'.state PowerUpType.speedBoost = false := by
        have h := congrArg (Option.map (fun g => isPowerUp g.state PowerUpType.speedBoost)) hg
        rw [show (gameLoop exGameC4 exOracleC4).map
            (fun g => isPowerUp g.state PowerUpType.speedBoost) = some false by decide] at h
        exact (Option.some.inj h.symm)
      rw [getCurrentSpeed_params hs hi hm hf hb]
      rw [show ((150 : ℚ) - ((0 : Nat) : ℚ) * 2) = 150 by norm_num]
      rw [max_eq_right (by norm_num)]

/-- C4 amended: the loop timer is rescheduled only by a tick that eats food
(covering power-up activation, which happens inside that same tick before
the reschedule); a non-colliding tick that eats nothing never touches the
timer, so after a power-up expiry the timer keeps running at the stale
interval; when food is eaten with the timer active and no power-up expires
in that same tick, the new interval equals the speed formula at the
end-of-tick state. -/
theorem c4_reschedule_only_on_eat (g : Game) (o : TickOracle) (g' : Game)
    (h : gameLoop g o = some g')
    (hc : checkCollision (tickMove g) = false) :
    (eatsFood (tickMove g) = false → g'.gameLoopInterval = g.gameLoopInterval)
    ∧ (eatsFood (tickMove g) = true → g.gameLoopInterval.isSome = true →
        (g.food.type = FoodType.special ∨ g.state.powerUpActive = false ∨
          o.now < g.state.powerUpEndTime) →
        g'.gameLoopInterval = some (getCurrentSpeed g')) := by
  rcases gameLoop_cases h with ⟨hcc, _⟩ | ⟨_, g2, h2, rfl⟩
  · rw [hc] at hcc
    exact absurd hcc (by simp)
  constructor
  · intro he
    unfold checkFood at h2
    rw [if_neg (by simp [he])] at h2
    have hg2 := Option.some.inj h2
    subst hg2
    rw [checkPowerUps_gameLoopInterval, tickMove_gameLoopInterval]
  · intro he hsome hnx
    unfold checkFood at h2
    rw [if_pos (by simp [he])] at h2
    obtain ⟨g5, h5, h6⟩ := Option.bind_eq_some.mp h2
    obtain ⟨g6, h6, h7⟩ := Option.bind_eq_some.mp h6
    have hpost := postEat_proj (tickMove g) o
    obtain ⟨_, hst5, hcf5, _, hil5⟩ := spawnFood_some h5
    have key6 : g6.state = g5.state ∧ g6.config = g5.config
        ∧ g6.gameLoopInterval = g5.gameLoopInterval := by
      split_ifs at h6
      · obtain ⟨_, b, c, _, e, _⟩ := spawnObstacle_some h6
        exact ⟨b, c, e⟩
      · have h8 := Option.some.inj h6
        subst h8
        exact ⟨rfl, rfl, rfl⟩
    obtain ⟨hst6, hcf6, hil6⟩ := key6
    have hil6g : g6.gameLoopInterval = g.gameLoopInterval := by
      rw [hil6, hil5, hpost.2.2.2.2.2.2.2.2.2.1, tickMove_gameLoopInterval]
    rw [if_pos (by rw [hil6g]; exact hsome)] at h7
    have hg2 := Option.some.inj h7
    subst hg2
    have hnoexp : ¬ (({ g6 with gameLoopInterval := some (getCurrentSpeed g6) } :
        Game).state.powerUpActive = true ∧
        o.now ≥ ({ g6 with gameLoopInterval := some (getCurrentSpeed g6) } :
          Game).state.powerUpEndTime) := by
      show ¬ (g6.state.powerUpActive = true ∧ o.now ≥ g6.state.powerUpEndTime)
      rw [hst6, hst5]
      by_cases hsp : (tickMove g).food.type = FoodType.special
      · obtain ⟨_, _, hend⟩ := postEat_power_special o hsp
        rw [hend]
        rintro ⟨_, habs⟩
        omega
      · obtain ⟨hact, _, hend⟩ := postEat_power_normal o hsp
        rw [hact, hend, tickMove_state]
        rw [tickMove_food] at hsp
        rcases hnx with hnx | hnx | hnx
        · exact absurd hnx hsp
        · rintro ⟨habs, _⟩
          rw [hnx] at habs
          exact absurd habs (by simp)
        · rintro ⟨_, habs⟩
          omega
    rw [checkPowerUps_of_not_expired hnoexp]
    have hspeed :
        getCurrentSpeed ({ g6 with gameLoopInterval := some (getCurrentSpeed g6) } : Game)
          = getCurrentSpeed g6 :=
      getCurrentSpeed_congr rfl rfl rfl
    rw [hspeed]

/-- Witness for the amended C4 at a concrete eating tick with the timer
running and no power-up in flight. -/
theorem c4_reschedule_only_on_eat_witness :
    checkCollision (tickMove exGameC2) = false
    ∧ eatsFood (tickMove exGameC2) = true
    ∧ exGameC2.gameLoopInterval.isSome = true
    ∧ ∃ g', gameLoop exGameC2 exOracle0 = some g'
        ∧ g'.gameLoopInterval = some (getCurrentSpeed g') := by
  refine ⟨by decide, by decide, by decide, ?_⟩
  cases hg : gameLoop exGameC2 exOracle0 with
  | none => exact absurd hg (by decide)
  | some g' =>
    exact ⟨g', rfl,
      (c4_reschedule_only_on_eat exGameC2 exOracle0 g' hg (by decide)).2
        (by decide) (by decide) (Or.inr (Or.inl (by decide)))⟩

/-! Claim C7: direction input handling. -/

lemma validDir_iff_code (cur d : String) :
    ((d = "up" ∧ cur ≠ "down")
      ∨ (d = "down" ∧ cur ≠ "up")
      ∨ (d = "left" ∧ cur ≠ "right")
      ∨ (d = "right" ∧ cur ≠ "left")) ↔ ValidDir cur d := by
  unfold ValidDir IsCardinal IsReversal
  by_cases h1 : d = "up" <;> by_cases h2 : d = "down" <;> by_cases h3 : d = "left" <;>
    by_cases h4 : d = "right" <;> simp_all <;> tauto

lemma changeDirection_direction (g : Game) (d : String) :
    (changeDirection g d).snake.direction = g.snake.direction := by
  unfold changeDirection; split_ifs <;> rfl

lemma changeDirection_body (g : Game) (d : String) :
    (changeDirection g d).snake.body = g.snake.body := by
  unfold changeDirection; split_ifs <;> rfl

lemma changeDirection_state (g : Game) (d : String) :
    (changeDirection g d).state = g.state := by
  unfold changeDirection; split_ifs <;> rfl

lemma changeDirection_config (g : Game) (d : String) :
    (changeDirection g d).config = g.config := by
  unfold changeDirection; split_ifs <;> rfl

lemma changeDirection_next (g : Game) (d : String) :
    (changeDirection g d).snake.nextDirection =
      if ValidDir g.snake.direction d then d else g.snake.nextDirection := by
  unfold changeDirection
  by_cases h : ValidDir g.snake.direction d
  · rw [if_pos ((validDir_iff_code _ _).mpr h), if_pos h]
  · rw [if_neg (fun hc => h ((validDir_iff_code _ _).mp hc)), if_neg h]

lemma foldl_lastValid (cur : String) (ds : List String) (init : String) :
    ds.foldl (fun c d => if ValidDir cur d then d else c) init
      = ((ds.filter (fun d => decide (ValidDir cur d))).getLast?).getD init := by
  induction ds generalizing init with
  | nil => rfl
  | cons d rest ih =>
    simp only [List.foldl_cons, List.filter_cons]
    by_cases h : ValidDir cur d
    · rw [if_pos h, ih, if_pos (by simpa using h)]
      cases hf : rest.filter (fun d => decide (ValidDir cur d)) with
      | nil => simp [hf]
      | cons a t =>
        have hs : ((a :: t).getLast?).isSome = true := List.getLast?_isSome.mpr (by simp)
        obtain ⟨x, hx⟩ := Option.isSome_iff_exists.mp hs
        rw [List.getLast?_cons_cons, hx]
        rfl
    · rw [if_neg h, ih, if_neg (by simpa using h)]

lemma applyDirCalls_spec (g : Game) (ds : List String) :
    (applyDirCalls g ds).snake.direction = g.snake.direction
    ∧ (applyDirCalls g ds).snake.nextDirection
        = ds.foldl (fun c d => if ValidDir g.snake.direction d then d else c)
            g.snake.nextDirection := by
  induction ds generalizing g with
  | nil => exact ⟨rfl, rfl⟩
  | cons d rest ih =>
    have e : applyDirCalls g (d :: rest) = applyDirCalls (changeDirection g d) rest := rfl
    rw [e, List.foldl_cons]
    obtain ⟨ih1, ih2⟩ := ih (changeDirection g d)
    have hdir := changeDirection_direction g d
    refine ⟨by rw [ih1, hdir], ?_⟩
    rw [ih2, hdir, changeDirection_next]

lemma gameLoop_direction {g : Game} {o : TickOracle} {g' : Game}
    (h : gameLoop g o = some g') : g'.snake.direction = g.snake.nextDirection := by
  rcases gameLoop_cases h with ⟨_, rfl⟩ | ⟨_, g2, h2, rfl⟩
  · rw [endGame_snake]
    unfold tickMove
    rw [moveSnake_direction, commitDir_direction]
  · rw [checkPowerUps_snake, (checkFood_some h2).2.2.2.2.2.1]
    unfold tickMove
    rw [moveSnake_direction, commitDir_direction]

/-- C7: changeDirection ignores any argument that is not a valid cardinal
move relative to the committed direction (a reversal or a non-cardinal
string is a silent no-op), otherwise buffers it into nextDirection; over a
burst of calls between two ticks only the last valid argument survives, and
that is the direction the next completed tick commits. -/
theorem c7_change_direction (g : Game) (d : String) (ds : List String) :
    (¬ ValidDir g.snake.direction d → changeDirection g d = g)
    ∧ (ValidDir g.snake.direction d → (changeDirection g d).snake.nextDirection = d)
    ∧ (applyDirCalls g ds).snake.nextDirection
        = ((ds.filter (fun e => decide (ValidDir g.snake.direction e))).getLast?).getD
            g.snake.nextDirection
    ∧ (∀ o g', gameLoop (applyDirCalls g ds) o = some g' →
        g'.snake.direction
          = ((ds.filter (fun e => decide (ValidDir g.snake.direction e))).getLast?).getD
              g.snake.nextDirection) := by
  refine ⟨?_, ?_, ?_, ?_⟩
  · intro h
    unfold changeDirection
    rw [if_neg (fun hc => h ((validDir_iff_code _ _).mp hc))]
  · intro h
    rw [changeDirection_next, if_pos h]
  · rw [(applyDirCalls_spec g ds).2, foldl_lastValid]
  · intro o g' h
    rw [gameLoop_direction h, (applyDirCalls_spec g ds).2, foldl_lastValid]

/-- Witness for C7: a reversal is ignored, a perpendicular call is buffered,
and of the burst up, left, down (left invalid against a rightward snake) the
last valid call down wins. -/
theorem c7_change_direction_witness :
    ¬ ValidDir exGameC2.snake.direction "left"
    ∧ changeDirection exGameC2 "left" = exGameC2
    ∧ ValidDir exGameC2.snake.direction "up"
    ∧ (changeDirection exGameC2 "up").snake.nextDirection = "up"
    ∧ (applyDirCalls exGameC2 ["up", "left", "down"]).snake.nextDirection = "down" := by
  have h := c7_change_direction exGameC2 "left" ["up", "left", "down"]
  have h2 := c7_change_direction exGameC2 "up" []
  refine ⟨by decide, h.1 (by decide), by decide, h2.2.1 (by decide), ?_⟩
  rw [h.2.2.1]
  decide

/-! Claim C1: the tick ends the game exactly on the spec's collision rule. -/

lemma Cell.eq_iff {a b : Cell} : a = b ↔ a.x = b.x ∧ a.y = b.y := by
  obtain ⟨ax, ay⟩ := a
  obtain ⟨bx, bz⟩ := b
  simp [Cell.mk.injEq]

lemma collidesAny_iff (a : Cell) (l : List Cell) :
    (l.any fun b => cellsCollide a b) = true ↔ a ∈ l := by
  simp only [List.any_eq_true, cellsCollide, Bool.and_eq_true, decide_eq_true_eq]
  constructor
  · rintro ⟨b, hb, hx, hy⟩
    rwa [show a = b from Cell.eq_iff.mpr ⟨hx, hy⟩]
  · intro ha
    exact ⟨a, ha, rfl, rfl⟩

lemma mem_drop_one_iff {l : List Cell} {a : Cell} :
    a ∈ l.drop 1 ↔ ∃ i : Fin l.length, 1 ≤ (i : Nat) ∧ l.get i = a := by
  cases l with
  | nil => simp
  | cons b t =>
    simp only [List.drop_succ_cons, List.drop_zero]
    constructor
    · intro hm
      obtain ⟨⟨j, hj⟩, hget⟩ := List.mem_iff_get.mp hm
      refine ⟨⟨j + 1, by simpa using Nat.succ_lt_succ hj⟩, by simp, ?_⟩
      simpa using hget
    · rintro ⟨⟨i, hi⟩, h1, hget⟩
      cases i with
      | zero => simp at h1
      | succ j =>
        apply List.mem_iff_get.mpr
        exact ⟨⟨j, by simpa using Nat.lt_of_succ_lt_succ hi⟩, by simpa using hget⟩

lemma outOfBounds_iff (cfg : Config) (c : Cell) :
    outOfBounds cfg c = true ↔ ¬ InBounds cfg c := by
  simp only [outOfBounds, InBounds, Bool.or_eq_true, decide_eq_true_eq]
  omega

lemma outOfBounds_false_iff (cfg : Config) (c : Cell) :
    outOfBounds cfg c = false ↔ InBounds cfg c := by
  rw [← Bool.not_eq_true, outOfBounds_iff, not_not]

lemma isPowerUp_false_iff (st : GState) (t : PowerUpType) :
    isPowerUp st t = false ↔ ¬ (st.powerUpActive = true ∧ st.powerUpType = some t) := by
  rw [← Bool.not_eq_true, isPowerUp_true_iff]

/-- Game.checkCollision decides exactly the spec's collision predicate. -/
lemma checkCollision_iff_spec (g : Game) :
    checkCollision g = true ↔ CollidesSpec g := by
  unfold checkCollision CollidesSpec
  simp only [Bool.or_eq_true, Bool.and_eq_true, Bool.not_eq_true', decide_eq_true_eq]
  constructor
  · rintro ((⟨h1, h2⟩ | ⟨h1, h2⟩) | ⟨⟨h1, h2⟩, h3⟩)
    · exact Or.inl ⟨(isPowerUp_false_iff _ _).mp h1, (outOfBounds_iff _ _).mp h2⟩
    · exact Or.inr (Or.inl ⟨(isPowerUp_false_iff _ _).mp h1,
        mem_drop_one_iff.mp ((collidesAny_iff _ _).mp h2)⟩)
    · exact Or.inr (Or.inr ⟨h1, (isPowerUp_false_iff _ _).mp h2,
        (collidesAny_iff _ _).mp h3⟩)
  · rintro (⟨h1, h2⟩ | ⟨h1, h2⟩ | ⟨h1, h2, h3⟩)
    · exact Or.inl (Or.inl ⟨(isPowerUp_false_iff _ _).mpr h1,
        (outOfBounds_iff _ _).mpr h2⟩)
    · exact Or.inl (Or.inr ⟨(isPowerUp_false_iff _ _).mpr h1,
        (collidesAny_iff _ _).mpr (mem_drop_one_iff.mpr h2)⟩)
    · exact Or.inr ⟨⟨h1, (isPowerUp_false_iff _ _).mpr h2⟩,
        (collidesAny_iff _ _).mpr h3⟩

/-- C1: a completed tick of a running, not-yet-over game ends in gameOver
exactly when, after the move, the spec's collision rule holds — (a) wallPass
inactive and the head outside the grid, or (b) invincible inactive and the
head on a body cell of index 1 or later, or (c) obstacle mode, invincible
inactive, and the head on an obstacle; when it holds, the tick result is
exactly endGame of the moved state, and food consumption and power-up expiry
are skipped (counters, food, and power-up fields are untouched). -/
theorem c1_tick_gameover_iff_collision (g : Game) (o : TickOracle) (g' : Game)
    (hrun : g.state.running = true) (hgo : g.state.gameOver = false)
    (h : gameLoop g o = some g') :
    (g'.state.gameOver = true ↔ CollidesSpec (tickMove g))
    ∧ (CollidesSpec (tickMove g) →
        g' = endGame (tickMove g)
        ∧ g'.state.foodEaten = g.state.foodEaten
        ∧ g'.state.score = g.state.score
        ∧ g'.food = g.food
        ∧ g'.state.powerUpActive = g.state.powerUpActive
        ∧ g'.state.powerUpType = g.state.powerUpType) := by
  rcases gameLoop_cases h with ⟨hc, rfl⟩ | ⟨hc, g2, h2, rfl⟩
  · have hrun' : (tickMove g).state.running = true := by
      rw [tickMove_state]; exact hrun
    have hspec := (checkCollision_iff_spec (tickMove g)).mp hc
    refine ⟨⟨fun _ => hspec, fun _ => endGame_gameOver_of_running hrun'⟩, fun _ => ?_⟩
    refine ⟨rfl, ?_, ?_, ?_, ?_, ?_⟩
    · rw [endGame_foodEaten, tickMove_state]
    · rw [endGame_score, tickMove_state]
    · rw [endGame_food, tickMove_food]
    · rw [endGame_powerUpActive, tickMove_state]
    · rw [endGame_powerUpType, tickMove_state]
  · have hnspec : ¬ CollidesSpec (tickMove g) := by
      intro hs
      have habs := (checkCollision_iff_spec (tickMove g)).mpr hs
      rw [hc] at habs
      exact absurd habs (by simp)
    have hgo' : (checkPowerUps g2 o.now).state.gameOver = false := by
      rw [checkPowerUps_gameOver, (checkFood_some h2).2.2.1, tickMove_state, hgo]
    refine ⟨⟨fun habs => ?_, fun hs => absurd hs hnspec⟩, fun hs => absurd hs hnspec⟩
    rw [hgo'] at habs
    exact absurd habs (by simp)

/-- Witness for C1 at a running game whose next move crosses the wall. -/
theorem c1_tick_gameover_iff_collision_witness :
    exGameC10pre.state.running = true
    ∧ exGameC10pre.state.gameOver = false
    ∧ CollidesSpec (tickMove exGameC10pre)
    ∧ ∃ g', gameLoop exGameC10pre exOracle0 = some g'
        ∧ g'.state.gameOver = true
        ∧ g'.state.foodEaten = exGameC10pre.state.foodEaten
        ∧ g'.state.score = exGameC10pre.state.score := by
  refine ⟨by decide, by decide, by decide, ?_⟩
  cases hg : gameLoop exGameC10pre exOracle0 with
  | none => exact absurd hg (by decide)
  | some g' =>
    have h := c1_tick_gameover_iff_collision exGameC10pre exOracle0 g'
      (by decide) (by decide) hg
    obtain ⟨_, hfe, hsc, _, _, _⟩ := h.2 (by decide)
    exact ⟨g', rfl, h.1.mpr (by decide), hfe, hsc⟩

/-! Claim C8: an obstacle collision ends the tick before any scoring. -/

/-- C8: in obstacle mode with invincible inactive, a tick whose moved head
lands on an obstacle cell ends the game during that tick with foodEaten and
score exactly as before the tick — the collision short-circuits checkFood,
so this holds even when the obstacle cell also carries the food (the
witness exercises exactly that coincidence). -/
theorem c8_obstacle_collision_preserves_score (g : Game) (o : TickOracle)
    (hrun : g.state.running = true)
    (hne : g.snake.body ≠ [])
    (hmode : g.config.mode = Mode.obstacle)
    (hinv : isPowerUp g.state PowerUpType.invincible = false)
    (hobs : newHeadCalc (commitDir g) ∈ g.obstacles) :
    ∃ g', gameLoop g o = some g'
      ∧ g'.state.gameOver = true
      ∧ g'.state.running = false
      ∧ g'.state.foodEaten = g.state.foodEaten
      ∧ g'.state.score = g.state.score := by
  have hcol : checkCollision (tickMove g) = true := by
    unfold checkCollision
    simp only [Bool.or_eq_true, Bool.and_eq_true, Bool.not_eq_true', decide_eq_true_eq]
    refine Or.inr ⟨⟨?_, ?_⟩, ?_⟩
    · rw [tickMove_config]; exact hmode
    · rw [tickMove_state]; exact hinv
    · rw [tickMove_obstacles, tickMove_head hne]
      exact (collidesAny_iff _ _).mpr hobs
  have hrun' : (tickMove g).state.running = true := by
    rw [tickMove_state]; exact hrun
  refine ⟨endGame (tickMove g), ?_, ?_, ?_, ?_, ?_⟩
  · simp only [gameLoop]
    rw [if_pos hcol]
  · exact endGame_gameOver_of_running hrun'
  · exact endGame_running_of_running hrun'
  · rw [endGame_foodEaten, tickMove_state]
  · rw [endGame_score, tickMove_state]

/-- Witness for C8 at a game whose obstacle cell coincides with the food
cell: the tick still ends the game with score 7 and foodEaten 4 unchanged. -/
theorem c8_obstacle_collision_preserves_score_witness :
    exGameC8.state.running = true
    ∧ exGameC8.snake.body ≠ []
    ∧ exGameC8.config.mode = Mode.obstacle
    ∧ isPowerUp exGameC8.state PowerUpType.invincible = false
    ∧ newHeadCalc (commitDir exGameC8) ∈ exGameC8.obstacles
    ∧ foodCell exGameC8.food = newHeadCalc (commitDir exGameC8)
    ∧ ∃ g', gameLoop exGameC8 exOracle0 = some g'
        ∧ g'.state.gameOver = true ∧ g'.state.foodEaten = 4 ∧ g'.state.score = 7 := by
  refine ⟨by decide, by decide, by decide, by decide, by decide, by decide, ?_⟩
  obtain ⟨g', hg, hgo, _, hfe, hsc⟩ :=
    c8_obstacle_collision_preserves_score exGameC8 exOracle0
      (by decide) (by decide) (by decide) (by decide) (by decide)
  exact ⟨g', hg, hgo, hfe.trans (by decide), hsc.trans (by decide)⟩

/-! Claim C9: setConfig semantics. -/

lemma findSpot_valid {p : Cell → Bool} {cands : List Cell} {c : Cell}
    (h : findSpot p cands = some c) : p c = true := by
  induction cands with
  | nil => exact absurd h (by simp [findSpot])
  | cons a rest ih =>
    unfold findSpot at h
    split_ifs at h with ha
    · rw [← Option.some.inj h]; exact ha
    · exact ih h

lemma spawnFood_food {g : Game} {isSp : Bool} {cands : List Cell} {now : Int} {g' : Game}
    (h : spawnFood g isSp cands now = some g') :
    ∃ c, findSpot (validFoodCell { g with specialFoodTimer := none }) cands = some c
      ∧ g'.food = ⟨c.x, c.y, if isSp then FoodType.special else FoodType.normal⟩
      ∧ g'.specialFoodTimer
          = (if isSp then some (now + g.config.specialFoodDuration) else none) := by
  simp only [spawnFood] at h
  cases hf : findSpot (validFoodCell { g with specialFoodTimer := none }) cands with
  | none => rw [hf] at h; exact absurd h (by simp)
  | some c =>
    rw [hf] at h
    refine ⟨c, rfl, ?_⟩
    split_ifs at h with hs
    · have he := Option.some.inj h
      subst he
      simp [hs]
    · have he := Option.some.inj h
      subst he
      simp [hs]

lemma spawnObstacles_some {n : Nat} :
    ∀ {g : Game} {css : List (List Cell)} {g' : Game},
    spawnObstacles g n css = some g' →
    g'.snake = g.snake ∧ g'.state = g.state ∧ g'.config = g.config ∧ g'.food = g.food ∧
    g'.gameLoopInterval = g.gameLoopInterval ∧ g'.specialFoodTimer = g.specialFoodTimer := by
  induction n with
  | zero =>
    intro g css g' h
    have he := Option.some.inj (h : some g = some g')
    subst he
    exact ⟨rfl, rfl, rfl, rfl, rfl, rfl⟩
  | succ n ih =>
    intro g css g' h
    unfold spawnObstacles at h
    obtain ⟨g1, h1, h2⟩ := Option.bind_eq_some.mp h
    obtain ⟨a1, a2, a3, a4, a5, a6⟩ := spawnObstacle_some h1
    obtain ⟨b1, b2, b3, b4, b5, b6⟩ := ih h2
    exact ⟨b1.trans a1, b2.trans a2, b3.trans a3, b4.trans a4, b5.trans a5, b6.trans a6⟩

lemma initGameOn_some {g : Game} {isSp : Bool} {fc : List Cell} {oc : List (List Cell)}
    {now : Int} {g' : Game} (h : initGameOn g isSp fc oc now = some g') :
    g'.state = freshState
    ∧ g'.snake.direction = "right" ∧ g'.snake.nextDirection = "right"
    ∧ g'.snake.growing = g.snake.growing
    ∧ g'.snake.body = (List.range g.config.initialSnakeLength).map
        (fun i => ⟨Int.fdiv g.config.width 2 - (i : Int), Int.fdiv g.config.height 2⟩)
    ∧ g'.config = g.config
    ∧ g'.gameLoopInterval = none ∧ g'.gameTimeInterval = false
    ∧ g'.specialFoodTimer = none
    ∧ g'.food.type = (if isSp then FoodType.special else FoodType.normal)
    ∧ collidesWithList (foodCell g'.food) g'.snake.body = false
    ∧ (g.config.mode ≠ Mode.obstacle → g'.obstacles = g.obstacles) := by
  unfold initGameOn at h
  obtain ⟨g1, h1, h2⟩ := Option.bind_eq_some.mp h
  obtain ⟨g2, h3, h4⟩ := Option.map_eq_some'.mp h2
  subst h4
  obtain ⟨s1, s2, s3, s4, _⟩ := spawnFood_some h1
  obtain ⟨c, hc, hfood, _⟩ := spawnFood_food h1
  have hvalid := findSpot_valid hc
  have key2 : g2.snake = g1.snake ∧ g2.food = g1.food ∧ g2.config = g1.config
      ∧ (g.config.mode ≠ Mode.obstacle → g2.obstacles = g1.obstacles) := by
    split_ifs at h3 with hm
    · unfold initObstacles at h3
      obtain ⟨b1, _, b3, b4, _, _⟩ := spawnObstacles_some h3
      refine ⟨b1, b4, b3, fun hnm => ?_⟩
      rw [s3, (rfl : (initSnake g).config = g.config)] at hm
      exact absurd hm hnm
    · have he := Option.some.inj h3
      subst he
      exact ⟨rfl, rfl, rfl, fun _ => rfl⟩
  obtain ⟨k1, k2, k3, k4⟩ := key2
  have hsnake : g2.snake = (initSnake g).snake := by rw [k1, s1]
  have hbody : g2.snake.body = (List.range g.config.initialSnakeLength).map
      (fun i => ⟨Int.fdiv g.config.width 2 - (i : Int), Int.fdiv g.config.height 2⟩) := by
    rw [hsnake]
    rfl
  refine ⟨rfl, ?_, ?_, ?_, ?_, ?_, rfl, rfl, rfl, ?_, ?_, ?_⟩
  · show g2.snake.direction = "right"
    rw [hsnake]
    rfl
  · show g2.snake.nextDirection = "right"
    rw [hsnake]
    rfl
  · show g2.snake.growing = g.snake.growing
    rw [hsnake]
    rfl
  · exact hbody
  · show g2.config = g.config
    rw [k3, s3]
    try rfl
  · show g2.food.type = _
    rw [k2, hfood]
    try rfl
  · show collidesWithList (foodCell g2.food) g2.snake.body = false
    rw [k2, hfood]
    have hfc : foodCell ⟨c.x, c.y, if isSp then FoodType.special else FoodType.normal⟩ = c := by
      obtain ⟨cx, cy⟩ := c
      rfl
    rw [hfc, hsnake]
    have hv : validFoodCell { initSnake g with specialFoodTimer := none } c = true := hvalid
    unfold validFoodCell at hv
    simp only [Bool.and_eq_true, Bool.not_eq_true'] at hv
    exact hv.1
  · intro hnm
    show g2.obstacles = g.obstacles
    rw [k4 hnm, s4]
    try rfl

/-- C9 counterexample: with the engine idle and an empty patch (so the
merged configuration is unchanged), setConfig leaves the snake's growing
flag at its prior value true, whereas a fresh construction with the same
configuration and random draws starts with growing = false — the reset is
not "as at construction". -/
theorem c9_counterexample :
    exGameC9.state.running = false
    ∧ mergeConfig exGameC9.config {} = exGameC9.config
    ∧ (setConfig exGameC9 {} false [⟨0, 0⟩] [] 0).map (fun g => g.snake.growing)
        = some true
    ∧ (initGame exGameC9.config false [⟨0, 0⟩] [] 0).map (fun g => g.snake.growing)
        = some false := by
  exact ⟨by decide, rfl, by decide, by decide⟩

/-- C9 amended: setConfig always merges the patch over the stored
configuration; when running it changes nothing else; when idle it resets run
state, snake placement and food as at construction for the merged
configuration, except that the snake's growing flag keeps its prior value
and the obstacle list is only rebuilt when the merged mode is obstacle
(otherwise the previous obstacles persist, unlike a fresh construction). -/
theorem c9_set_config (g : Game) (p : ConfigPatch) (isSp : Bool) (fc : List Cell)
    (oc : List (List Cell)) (now : Int) :
    (∀ g', setConfig g p isSp fc oc now = some g' → g'.config = mergeConfig g.config p)
    ∧ (g.state.running = true →
        setConfig g p isSp fc oc now = some { g with config := mergeConfig g.config p })
    ∧ (g.state.running = false → ∀ g', setConfig g p isSp fc oc now = some g' →
        g'.state = freshState
        ∧ g'.snake.direction = "right" ∧ g'.snake.nextDirection = "right"
        ∧ g'.snake.growing = g.snake.growing
        ∧ g'.snake.body = (List.range (mergeConfig g.config p).initialSnakeLength).map
            (fun i => ⟨Int.fdiv (mergeConfig g.config p).width 2 - (i : Int),
                       Int.fdiv (mergeConfig g.config p).height 2⟩)
        ∧ g'.gameLoopInterval = none ∧ g'.gameTimeInterval = false
        ∧ g'.specialFoodTimer = none
        ∧ g'.food.type = (if isSp then FoodType.special else FoodType.normal)
        ∧ collidesWithList (foodCell g'.food) g'.snake.body = false
        ∧ ((mergeConfig g.config p).mode ≠ Mode.obstacle →
            g'.obstacles = g.obstacles)) := by
  refine ⟨?_, ?_, ?_⟩
  · intro g' h
    simp only [setConfig] at h
    split_ifs at h with hr
    · rw [← Option.some.inj h]
    · unfold resetGame at h
      exact (initGameOn_some h).2.2.2.2.2.1
  · intro hr
    simp only [setConfig]
    rw [if_pos (show ({ g with config := mergeConfig g.config p} :
      Game).state.running = true from hr)]
  · intro hr g' h
    simp only [setConfig] at h
    rw [if_neg (show ¬ ({ g with config := mergeConfig g.config p} :
      Game).state.running = true by rw [show ({ g with config := mergeConfig g.config p} :
        Game).state.running = g.state.running from rfl, hr]; simp)] at h
    unfold resetGame at h
    have res := initGameOn_some h
    rw [show (clearTimers ({ g with config := mergeConfig g.config p} : Game)).config
        = mergeConfig g.config p from rfl,
      show (clearTimers ({ g with config := mergeConfig g.config p} : Game)).snake.growing
        = g.snake.growing from rfl,
      show (clearTimers ({ g with config := mergeConfig g.config p} : Game)).obstacles
        = g.obstacles from rfl] at res
    obtain ⟨a1, a2, a3, a4, a5, _, a6, a7, a8, a9, a10, a11⟩ := res
    exact ⟨a1, a2, a3, a4, a5, a6, a7, a8, a9, a10, a11⟩

/-- Witness for the amended C9: the running branch leaves everything but the
configuration unchanged; the idle branch resets state but keeps the growing
flag. -/
theorem c9_set_config_witness :
    exGameC2.state.running = true
    ∧ setConfig exGameC2 {} false [] [] 0
        = some { exGameC2 with config := mergeConfig exGameC2.config {} }
    ∧ exGameC9.state.running = false
    ∧ ∃ g', setConfig exGameC9 {} false [⟨0, 0⟩] [] 0 = some g'
        ∧ g'.state = freshState ∧ g'.snake.growing = exGameC9.snake.growing := by
  refine ⟨by decide,
    (c9_set_config exGameC2 {} false [] [] 0).2.1 (by decide), by decide, ?_⟩
  cases hg : setConfig exGameC9 {} false [⟨0, 0⟩] [] 0 with
  | none => exact absurd hg (by decide)
  | some g' =>
    have h := (c9_set_config exGameC9 {} false [⟨0, 0⟩] [] 0).2.2 (by decide) g' hg
    exact ⟨g', rfl, h.1, h.2.2.2.1⟩

/-! Claim C10: out-of-bounds head on wall death, in-bounds body otherwise. -/

@[simp] lemma getRenderData_snake (g : Game) : (getRenderData g).snake = g.snake.body := rfl

lemma start_snake (g : Game) : (start g).snake = g.snake := by
  simp only [start]; split_ifs <;> rfl

lemma start_config (g : Game) : (start g).config = g.config := by
  simp only [start]; split_ifs <;> rfl

lemma start_state (g : Game) :
    (start g).state = (if g.state.running = true then g.state
      else { g.state with running := true, paused := false, gameOver := false }) := by
  simp only [start]; split_ifs <;> rfl

lemma pause_snake (g : Game) : (pause g).snake = g.snake := by
  simp only [pause]; split_ifs <;> rfl

lemma pause_config (g : Game) : (pause g).config = g.config := by
  simp only [pause]; split_ifs <;> rfl

lemma pause_gameOver (g : Game) : (pause g).state.gameOver = g.state.gameOver := by
  simp only [pause]; split_ifs <;> rfl

lemma pause_running (g : Game) : (pause g).state.running = g.state.running := by
  simp only [pause]; split_ifs <;> rfl

lemma resume_snake (g : Game) : (resume g).snake = g.snake := by
  simp only [resume]; split_ifs <;> rfl

lemma resume_config (g : Game) : (resume g).config = g.config := by
  simp only [resume]; split_ifs <;> rfl

lemma resume_gameOver (g : Game) : (resume g).state.gameOver = g.state.gameOver := by
  simp only [resume]; split_ifs <;> rfl

lemma resume_running (g : Game) : (resume g).state.running = g.state.running := by
  simp only [resume]; split_ifs <;> rfl

lemma timeTick_snake (g : Game) : (timeTick g).snake = g.snake := by
  simp only [timeTick]
  split_ifs
  · rw [endGame_snake]
  · rfl

lemma timeTick_config (g : Game) : (timeTick g).config = g.config := by
  simp only [timeTick]
  split_ifs
  · rw [endGame_config]
  · rfl

lemma timeTick_flags (g : Game) :
    ((timeTick g).state.gameOver = g.state.gameOver
      ∧ (timeTick g).state.running = g.state.running)
    ∨ ((timeTick g).state.gameOver = true ∧ (timeTick g).state.running = false) := by
  simp only [timeTick]
  split_ifs with h
  · unfold endGame clearTimers
    split_ifs with h2
    · exact Or.inr ⟨rfl, rfl⟩
    · exact Or.inl ⟨rfl, rfl⟩
  · exact Or.inl ⟨rfl, rfl⟩

lemma specialFoodFire_some {g : Game} {isSp : Bool} {cands : List Cell} {now : Int}
    {g' : Game} (h : specialFoodFire g isSp cands now = some g') :
    g'.snake = g.snake ∧ g'.state = g.state ∧ g'.config = g.config := by
  unfold specialFoodFire at h
  split_ifs at h with hs
  · obtain ⟨a, b, c, _, _⟩ := spawnFood_some h
    exact ⟨a, b, c⟩
  · have he := Option.some.inj h
    subst he
    exact ⟨rfl, rfl, rfl⟩

lemma wrapHead_inBounds {cfg : Config} {st : GState} (hw : 1 ≤ cfg.width)
    (hh : 1 ≤ cfg.height) (hwp : isPowerUp st PowerUpType.wallPass = true) (c0 : Cell) :
    InBounds cfg (wrapHead cfg st c0) := by
  simp only [wrapHead, InBounds]
  rw [if_pos hwp]
  obtain ⟨x, y⟩ := c0
  split_ifs <;> simp_all <;> omega

lemma checkCollision_false_head_inBounds {g : Game}
    (hc : checkCollision g = false)
    (hwp : isPowerUp g.state PowerUpType.wallPass = false) :
    InBounds g.config (g.snake.body.headD ⟨0, 0⟩) := by
  simp only [checkCollision, Bool.or_eq_false_iff] at hc
  obtain ⟨⟨h1, _⟩, _⟩ := hc
  rw [hwp] at h1
  simp only [Bool.not_false, Bool.true_and] at h1
  exact (outOfBounds_false_iff _ _).mp h1

/-- Inductive invariant over engine events (with the start event guarded
against game-over states): the configuration is fixed, the body stays
nonempty, a game-over state is never running, and outside game over every
body cell lies inside the grid. -/
lemma reach_invariant {g0 g : Game} (hr : ReachFrom g0 g)
    (hw : 1 ≤ g0.config.width) (hh : 1 ≤ g0.config.height)
    (hgo0 : g0.state.gameOver = false) (hne0 : g0.snake.body ≠ [])
    (hb0 : ∀ c ∈ g0.snake.body, InBounds g0.config c) :
    g.config = g0.config
    ∧ g.snake.body ≠ []
    ∧ (g.state.gameOver = true → g.state.running = false)
    ∧ (g.state.gameOver = false → ∀ c ∈ g.snake.body, InBounds g0.config c) := by
  induction hr with
  | refl =>
    refine ⟨rfl, hne0, fun h => ?_, fun _ => hb0⟩
    rw [hgo0] at h
    exact absurd h (by simp)
  | @tick g1 g2 o hprev hrun hloop ih =>
    obtain ⟨ihc, ihne, ihgr, ihb⟩ := ih
    have hgo1 : g1.state.gameOver = false := by
      cases hgb : g1.state.gameOver with
      | false => rfl
      | true => rw [ihgr hgb] at hrun; exact absurd hrun (by simp)
    have hrun' : (tickMove g1).state.running = true := by
      rw [tickMove_state]; exact hrun
    rcases gameLoop_cases hloop with ⟨hcol, rfl⟩ | ⟨hcol, g3, hcf, rfl⟩
    · refine ⟨?_, ?_, fun _ => endGame_running_of_running hrun', fun hfalse => ?_⟩
      · rw [endGame_config, tickMove_config, ihc]
      · rw [endGame_snake]
        exact tickMove_body_ne ihne
      · rw [endGame_gameOver_of_running hrun'] at hfalse
        exact absurd hfalse (by simp)
    · obtain ⟨hbody3, hcfg3, hgo3, _, _, _, _⟩ := checkFood_some hcf
      have hbody2 : (checkPowerUps g3 o.now).snake.body = (tickMove g1).snake.body := by
        rw [checkPowerUps_snake, hbody3]
      have hgo2 : (checkPowerUps g3 o.now).state.gameOver = false := by
        rw [checkPowerUps_gameOver, hgo3, tickMove_state, hgo1]
      refine ⟨?_, ?_, fun h => ?_, fun _ => ?_⟩
      · rw [checkPowerUps_config, hcfg3, tickMove_config, ihc]
      · rw [hbody2]
        exact tickMove_body_ne ihne
      · rw [hgo2] at h
        exact absurd h (by simp)
      · intro c hcm
        rw [hbody2] at hcm
        rcases tickMove_mem_body hcm with rfl | hold
        · by_cases hwp : isPowerUp g1.state PowerUpType.wallPass = true
          · have hbnd := wrapHead_inBounds
              (show 1 ≤ g1.config.width by rw [ihc]; exact hw)
              (show 1 ≤ g1.config.height by rw [ihc]; exact hh) hwp
              (dirMove (commitDir g1).snake.direction
                ((commitDir g1).snake.body.headD ⟨0, 0⟩))
            have : newHeadCalc (commitDir g1)
                = wrapHead g1.config g1.state
                    (dirMove (commitDir g1).snake.direction
                      ((commitDir g1).snake.body.headD ⟨0, 0⟩)) := rfl
            rw [this, ← ihc]
            exact hbnd
          · have hwp' : isPowerUp (tickMove g1).state PowerUpType.wallPass = false := by
              rw [tickMove_state]
              cases hb2 : isPowerUp g1.state PowerUpType.wallPass with
              | false => rfl
              | true => exact absurd hb2 hwp
            have hbnd := checkCollision_false_head_inBounds hcol hwp'
            rw [tickMove_head ihne, tickMove_config, ihc] at hbnd
            exact hbnd
        · exact ihb hgo1 c hold
  | @dir g1 d hprev ih =>
    obtain ⟨ihc, ihne, ihgr, ihb⟩ := ih
    refine ⟨by rw [changeDirection_config, ihc], ?_, ?_, ?_⟩
    · rw [changeDirection_body]; exact ihne
    · rw [changeDirection_state]; exact ihgr
    · rw [changeDirection_state, changeDirection_body]; exact ihb
  | @startEv g1 hprev hgo ih =>
    obtain ⟨ihc, ihne, ihgr, ihb⟩ := ih
    refine ⟨by rw [start_config, ihc], by rw [start_snake]; exact ihne, fun h => ?_,
      fun _ => ?_⟩
    · rw [start_state] at h
      split_ifs at h with hrc
      rw [ihgr h] at hrc
      exact absurd hrc (by simp)
    · rw [start_snake]
      exact ihb hgo
  | @pauseEv g1 hprev ih =>
    obtain ⟨ihc, ihne, ihgr, ihb⟩ := ih
    refine ⟨by rw [pause_config, ihc], by rw [pause_snake]; exact ihne, fun h => ?_,
      fun h => ?_⟩
    · rw [pause_gameOver] at h
      rw [pause_running]
      exact ihgr h
    · rw [pause_gameOver] at h
      rw [pause_snake]
      exact ihb h
  | @resumeEv g1 hprev ih =>
    obtain ⟨ihc, ihne, ihgr, ihb⟩ := ih
    refine ⟨by rw [resume_config, ihc], by rw [resume_snake]; exact ihne, fun h => ?_,
      fun h => ?_⟩
    · rw [resume_gameOver] at h
      rw [resume_running]
      exact ihgr h
    · rw [resume_gameOver] at h
      rw [resume_snake]
      exact ihb h
  | @clockEv g1 hprev hsched ih =>
    obtain ⟨ihc, ihne, ihgr, ihb⟩ := ih
    refine ⟨by rw [timeTick_config, ihc], by rw [timeTick_snake]; exact ihne, fun h => ?_,
      fun h => ?_⟩
    · rcases timeTick_flags g1 with ⟨f1, f2⟩ | ⟨f1, f2⟩
      · rw [f1] at h
        rw [f2]
        exact ihgr h
      · rw [f2]
    · rcases timeTick_flags g1 with ⟨f1, f2⟩ | ⟨f1, f2⟩
      · rw [f1] at h
        rw [timeTick_snake]
        exact ihb h
      · rw [f1] at h
        exact absurd h (by simp)
  | @foodTimerEv g1 g2 isSp cands now hprev hpend hfire ih =>
    obtain ⟨ihc, ihne, ihgr, ihb⟩ := ih
    obtain ⟨f1, f2, f3⟩ := specialFoodFire_some hfire
    refine ⟨by rw [f3, ihc], by rw [f1]; exact ihne, fun h => ?_, fun h => ?_⟩
    · rw [f2] at h ⊢
      exact ihgr h
    · rw [f2] at h
      rw [f1]
      exact ihb h

/-- C10 amended: provided start() is never invoked on a game-over state —
the code would resume the dead snake unchanged, out-of-bounds head included,
which is the correction — every reachable non-game-over state renders a
snake wholly inside the grid; and a tick of a running state that crosses the
boundary with wallPass inactive prepends the out-of-range head, ends the
game, and getRenderData of the resulting state reports that out-of-range
head. -/
theorem c10_bounds (g0 g : Game) (hr : ReachFrom g0 g) (h0 : InitOK g0) :
    (g.state.gameOver = false → ∀ c ∈ (getRenderData g).snake, InBounds g.config c)
    ∧ (∀ o g', g.state.running = true →
        isPowerUp g.state PowerUpType.wallPass = false →
        outOfBounds g.config (newHeadCalc (commitDir g)) = true →
        gameLoop g o = some g' →
          g'.state.gameOver = true
          ∧ (getRenderData g').snake.headD ⟨0, 0⟩ = newHeadCalc (commitDir g)
          ∧ outOfBounds g'.config ((getRenderData g').snake.headD ⟨0, 0⟩) = true) := by
  obtain ⟨hw, hh, hgo0, hne0, hb0⟩ := h0
  obtain ⟨hcfg, hne, hgr, hb⟩ := reach_invariant hr hw hh hgo0 hne0 hb0
  constructor
  · intro hgo c hcm
    rw [getRenderData_snake] at hcm
    rw [hcfg]
    exact hb hgo c hcm
  · intro o g' hrun hwp hoob hloop
    have hcol : checkCollision (tickMove g) = true := by
      unfold checkCollision
      simp only [Bool.or_eq_true, Bool.and_eq_true, Bool.not_eq_true']
      refine Or.inl (Or.inl ⟨?_, ?_⟩)
      · rw [tickMove_state]; exact hwp
      · rw [tickMove_head hne, tickMove_config]; exact hoob
    rcases gameLoop_cases hloop with ⟨_, rfl⟩ | ⟨hcf, _, _, _⟩
    · have hrun' : (tickMove g).state.running = true := by
        rw [tickMove_state]; exact hrun
      have hhead : (getRenderData (endGame (tickMove g))).snake.headD ⟨0, 0⟩
          = newHeadCalc (commitDir g) := by
        rw [getRenderData_snake, endGame_snake, tickMove_head hne]
      refine ⟨endGame_gameOver_of_running hrun', hhead, ?_⟩
      rw [hhead, endGame_config, tickMove_config]
      exact hoob
    · rw [hcol] at hcf
      exact absurd hcf (by simp)

/-- C10 counterexample to the unguarded converse: after a wall-collision
game over, calling start() resumes the dead snake as-is, giving a running,
not-game-over state whose head is outside the grid. -/
theorem c10_counterexample :
    exGameC10pre.state.gameOver = false
    ∧ (∀ c ∈ exGameC10pre.snake.body, InBounds exGameC10pre.config c)
    ∧ (gameLoop exGameC10pre exOracle0).map
        (fun g => (g.state.gameOver,
          (start g).state.gameOver,
          (start g).state.running,
          decide (InBounds (start g).config ((start g).snake.body.headD ⟨0, 0⟩))))
        = some (true, false, true, false) := by
  exact ⟨by decide, by decide, by decide⟩

/-- Witness for the amended C10 at a concrete base state: the in-bounds
invariant holds at the base, and the wall-crossing tick produces a game-over
snapshot whose head lies outside the grid. -/
theorem c10_bounds_witness :
    InitOK exGameC10pre
    ∧ exGameC10pre.state.running = true
    ∧ isPowerUp exGameC10pre.state PowerUpType.wallPass = false
    ∧ outOfBounds exGameC10pre.config (newHeadCalc (commitDir exGameC10pre)) = true
    ∧ (∀ c ∈ (getRenderData exGameC10pre).snake, InBounds exGameC10pre.config c)
    ∧ ∃ g', gameLoop exGameC10pre exOracle0 = some g'
        ∧ g'.state.gameOver = true
        ∧ outOfBounds g'.config ((getRenderData g').snake.headD ⟨0, 0⟩) = true := by
  refine ⟨by decide, by decide, by decide, by decide, ?_, ?_⟩
  · exact (c10_bounds exGameC10pre exGameC10pre ReachFrom.refl (by decide)).1 (by decide)
  · cases hg : gameLoop exGameC10pre exOracle0 with
    | none => exact absurd hg (by decide)
    | some g' =>
      obtain ⟨h1, _, h3⟩ :=
        (c10_bounds exGameC10pre exGameC10pre ReachFrom.refl (by decide)).2 exOracle0 g'
          (by decide) (by decide) (by decide) hg
      exact ⟨g', rfl, h1, h3⟩

end CyberSnake
